import Mathlib

/-! CSI logger (`scripts/csi_logger.h`, `scripts/csi_logger.cpp`)

A shallow embedding of the process-wide CSV logger `srsran::csi_logger`.

* The static members of the class are the first five fields of the structure
  `csi_logger`; every member function is a function on that structure.
* What the process does to the outside world (directory creation, opening,
  closing, writing and flushing files, messages on `std::cout`/`std::cerr`)
  is recorded, in order, in the field `trace`.
* What the outside world answers (the clock, whether a directory can be
  created, whether a file can be opened) is read from an `Env`, indexed by the
  number of requests made so far (`tick`).
* `float` is a type parameter `F`; `std::isnan`, `std::abs`, `std::arg` and
  the text `operator<<` produces for a `float` under a given stream format
  state are the fields of a `FloatOps F`.
* The mutex is not modelled: all statements are about sequential calls.
* `log_csi` is declared with three nested `std::vector`s but its body and its
  docstring use four levels; the embedding follows the body and records the
  difference at `csi_logger.log_csi`.
-/

namespace srsran

/-! ## Streams -/

/-- The `floatfield` flags of a `std::ios_base`. -/
inductive FloatField
  | defaultfloat
  | scientific
  | fixed
  deriving DecidableEq, Repr

/-- The part of a stream's format state that the logger touches. -/
structure FmtState where
  floatfield : FloatField
  precision : Nat
  deriving DecidableEq, Repr

/-- A freshly constructed stream: `defaultfloat`, precision 6. -/
def FmtState.initial : FmtState :=
  { floatfield := FloatField.defaultfloat, precision := 6 }

/-- The effect of `<< std::scientific << std::setprecision(6)`. -/
def FmtState.scientific6 (fmt : FmtState) : FmtState :=
  { fmt with floatfield := FloatField.scientific, precision := 6 }

/-- A `std::complex<float>`. -/
structure complex (F : Type) where
  real : F
  imag : F

/-- The operations on `float` used by the logger. `render fmt x` is the text
`stream << x` produces when the stream's format state is `fmt`. -/
structure FloatOps (F : Type) where
  isnan : F → Bool
  abs : complex F → F
  arg : complex F → F
  render : FmtState → F → String

/-- The static `std::ofstream log_file_`: whether a file is attached, which
one, and the format state (which `close`/`open` do not reset). -/
structure ofstream where
  is_open : Bool
  path : String
  fmt : FmtState
  deriving DecidableEq, Repr

/-! ## The outside world -/

/-- What the process does to the outside world. -/
inductive Event
  | create_directories (dir : String) (ok : Bool)
  | fclose (path : String)
  | fopen (path : String) (ok : Bool)
  | fwrite (path : String) (text : String)
  | fflush (path : String)
  | cerr (text : String)
  | cout (text : String)
  deriving DecidableEq, Repr

/-- The fields of `std::tm` read by `std::put_time`. -/
structure tm where
  tm_year : Nat
  tm_mon : Nat
  tm_mday : Nat
  tm_hour : Nat
  tm_min : Nat
  tm_sec : Nat
  deriving DecidableEq, Repr

/-- One reading of `std::chrono::system_clock::now()`: the milliseconds since
the epoch and the broken-down local time of its `time_t`. -/
structure time_point where
  epoch_ms : Nat
  local_tm : tm
  deriving DecidableEq, Repr

/-- The answers of the outside world; the first argument is the number of
requests the process has made before this one. `create_directories` answers
`some what` when `std::filesystem::create_directories` throws an exception
whose message is `what`, and `none` when it returns. -/
structure Env where
  now : Nat → time_point
  create_directories : Nat → String → Option String
  open_ok : Nat → String → Bool

/-! ## Text helpers -/

/-- `stream << std::setfill('0') << std::setw(w) << n` for an unsigned `n`. -/
def setw_fill0 (w : Nat) (n : Nat) : String :=
  String.mk (List.replicate (w - (toString n).length) '0') ++ toString n

/-- `std::put_time(t, "%Y%m%d_%H%M%S")`. -/
def put_time_file (t : tm) : String :=
  toString (t.tm_year + 1900) ++ setw_fill0 2 (t.tm_mon + 1) ++ setw_fill0 2 t.tm_mday
    ++ "_" ++ setw_fill0 2 t.tm_hour ++ setw_fill0 2 t.tm_min ++ setw_fill0 2 t.tm_sec

/-- `std::put_time(t, "%Y-%m-%d %H:%M:%S")`. -/
def put_time_stamp (t : tm) : String :=
  toString (t.tm_year + 1900) ++ "-" ++ setw_fill0 2 (t.tm_mon + 1) ++ "-"
    ++ setw_fill0 2 t.tm_mday ++ " " ++ setw_fill0 2 t.tm_hour ++ ":"
    ++ setw_fill0 2 t.tm_min ++ ":" ++ setw_fill0 2 t.tm_sec

/-- The CSV header written by `rotate_file`. -/
def csv_header : String :=
  "timestamp,slot,symbol,rnti,"
    ++ "prb_start,nof_prb,prb_idx,re_idx,"
    ++ "rx_port,tx_layer,"
    ++ "csi_real,csi_imag,csi_magnitude,csi_phase,"
    ++ "rsrp_db,rsrq_db,sinr_db\n"

/-- The default argument of `init`. -/
def default_log_dir : String := "/tmp/csi_logs"

/-! ## The logger -/

/-- The static members of `csi_logger`, with the request counter and the
trace of the outside world. -/
structure csi_logger where
  log_file_ : ofstream
  log_dir_ : String
  current_file_ : String
  initialized_ : Bool
  file_rotation_counter_ : Nat
  tick : Nat
  trace : List Event
  deriving DecidableEq, Repr

namespace csi_logger

/-- The static member initialization at the top of `csi_logger.cpp`. -/
def initial : csi_logger :=
  { log_file_ := { is_open := false, path := "", fmt := FmtState.initial }
    log_dir_ := "/tmp/csi_logs"
    current_file_ := ""
    initialized_ := false
    file_rotation_counter_ := 0
    tick := 0
    trace := [] }

/-- The file name `rotate_file` builds in its `std::stringstream`. -/
def file_name (log_dir : String) (now : time_point) (counter : Nat) : String :=
  log_dir ++ "/csi_"
    ++ put_time_file now.local_tm
    ++ "_" ++ setw_fill0 3 (now.epoch_ms % 1000)
    ++ "_" ++ toString counter
    ++ ".csv"

/-- `csi_logger::rotate_file`. -/
def rotate_file (env : Env) (s : csi_logger) : csi_logger :=
  let s1 : csi_logger :=
    if s.log_file_.is_open then
      { s with
        log_file_ := { s.log_file_ with is_open := false }
        trace := s.trace ++ [Event.fclose s.log_file_.path] }
    else s
  let now := env.now s1.tick
  let path := file_name s1.log_dir_ now s1.file_rotation_counter_
  let ok := env.open_ok (s1.tick + 1) path
  let s2 : csi_logger :=
    { s1 with
      file_rotation_counter_ := (s1.file_rotation_counter_ + 1) % 18446744073709551616
      current_file_ := path
      log_file_ := { s1.log_file_ with is_open := ok, path := path }
      tick := s1.tick + 2
      trace := s1.trace ++ [Event.fopen path ok] }
  if ok then
    { s2 with trace := s2.trace ++ [Event.fwrite path csv_header, Event.fflush path] }
  else
    { s2 with trace := s2.trace ++ [Event.cerr ("Error opening CSI log file: " ++ path ++ "\n")] }

/-- `csi_logger::init`. -/
def init (env : Env) (log_dir : String) (s : csi_logger) : csi_logger :=
  let s1 : csi_logger := { s with log_dir_ := log_dir }
  match env.create_directories s1.tick s1.log_dir_ with
  | some what =>
    { s1 with
      tick := s1.tick + 1
      trace := s1.trace ++ [Event.create_directories s1.log_dir_ false,
        Event.cerr ("Error creating CSI log directory: " ++ what ++ "\n")] }
  | none =>
    let s2 : csi_logger :=
      { s1 with
        tick := s1.tick + 1
        trace := s1.trace ++ [Event.create_directories s1.log_dir_ true] }
    let s3 := rotate_file env s2
    let s4 : csi_logger := { s3 with initialized_ := true }
    { s4 with
      trace := s4.trace ++
        [Event.cout ("CSI Logger initialized. Logging to: " ++ s4.current_file_ ++ "\n")] }

/-- `csi_logger::get_timestamp_string`. -/
def get_timestamp_string (env : Env) (s : csi_logger) : String × csi_logger :=
  let now := env.now s.tick
  (put_time_stamp now.local_tm ++ "." ++ setw_fill0 3 (now.epoch_ms % 1000),
    { s with tick := s.tick + 1 })

/-- The three trailing fields of a row of `log_csi`, as sent to the stream
after the `csi_phase` column. -/
def log_csi_tail {F : Type} (ops : FloatOps F) (fmt : FmtState)
    (rsrp_db rsrq_db sinr_db : F) (port layer prb_idx re_idx : Nat) : String :=
  if port == 0 && layer == 0 && prb_idx == 0 && re_idx == 0 then
    (if !ops.isnan rsrp_db then "," ++ ops.render fmt rsrp_db else ",")
      ++ (if !ops.isnan rsrq_db then "," ++ ops.render fmt rsrq_db else ",")
      ++ (if !ops.isnan sinr_db then "," ++ ops.render fmt sinr_db else ",")
  else ",,,"

/-- The text one iteration of the innermost loop of `log_csi` sends to
`log_file_` when the stream's format state is `fmt`, and the format state
after it. -/
def log_csi_row {F : Type} (ops : FloatOps F) (fmt : FmtState) (timestamp : String)
    (slot_idx symbol_idx rnti prb_start nof_prb : Nat) (rsrp_db rsrq_db sinr_db : F)
    (port layer prb_idx re_idx : Nat) (csi_value : complex F) : String × FmtState :=
  let magnitude := ops.abs csi_value
  let phase := ops.arg csi_value
  let head := timestamp ++ ","
    ++ toString slot_idx ++ ","
    ++ toString symbol_idx ++ ","
    ++ toString rnti ++ ","
    ++ toString prb_start ++ ","
    ++ toString nof_prb ++ ","
    ++ toString ((prb_start + prb_idx) % 18446744073709551616) ++ ","
    ++ toString re_idx ++ ","
    ++ toString port ++ ","
    ++ toString layer ++ ","
  let fmt1 := fmt.scientific6
  let csi := ops.render fmt1 csi_value.real ++ ","
    ++ ops.render fmt1 csi_value.imag ++ ","
    ++ ops.render fmt1 magnitude ++ ","
    ++ ops.render fmt1 phase
  (head ++ csi
    ++ log_csi_tail ops fmt1 rsrp_db rsrq_db sinr_db port layer prb_idx re_idx
    ++ "\n", fmt1)

/-- The three trailing fields of a row of `log_csi_simple`. -/
def log_csi_simple_tail {F : Type} (ops : FloatOps F) (fmt : FmtState)
    (rsrp_db : F) (prb_idx re_idx : Nat) : String :=
  if prb_idx == 0 && re_idx == 0 then
    (if !ops.isnan rsrp_db then "," ++ ops.render fmt rsrp_db ++ ",," else ",,,")
  else ",,,"

/-- The text one iteration of the inner loop of `log_csi_simple` sends to
`log_file_`, and the format state after it. -/
def log_csi_simple_row {F : Type} (ops : FloatOps F) (fmt : FmtState) (timestamp : String)
    (slot_idx symbol_idx rnti prb_start nof_prb : Nat) (rsrp_db : F)
    (prb_idx re_idx : Nat) (csi_value : complex F) : String × FmtState :=
  let magnitude := ops.abs csi_value
  let phase := ops.arg csi_value
  let head := timestamp ++ ","
    ++ toString slot_idx ++ ","
    ++ toString symbol_idx ++ ","
    ++ toString rnti ++ ","
    ++ toString prb_start ++ ","
    ++ toString nof_prb ++ ","
    ++ toString ((prb_start + prb_idx) % 18446744073709551616) ++ ","
    ++ toString re_idx ++ ","
    ++ "0,"
    ++ "0,"
  let fmt1 := fmt.scientific6
  let csi := ops.render fmt1 csi_value.real ++ ","
    ++ ops.render fmt1 csi_value.imag ++ ","
    ++ ops.render fmt1 magnitude ++ ","
    ++ ops.render fmt1 phase
  (head ++ csi ++ log_csi_simple_tail ops fmt1 rsrp_db prb_idx re_idx ++ "\n", fmt1)

/-- Send one row to `log_file_`: the text goes to the attached file and the
stream keeps the format state the row leaves behind. -/
def put_row (row : FmtState → String × FmtState) (s : csi_logger) : csi_logger :=
  let r := row s.log_file_.fmt
  { s with
    log_file_ := { s.log_file_ with fmt := r.2 }
    trace := s.trace ++ [Event.fwrite s.log_file_.path r.1] }

/-- `log_file_.flush()`. -/
def flush (s : csi_logger) : csi_logger :=
  { s with trace := s.trace ++ [Event.fflush s.log_file_.path] }

/-- `csi_logger::log_csi`. Each `for (size_t i = 0; i < v.size(); ++i)` over
`v[i]` is a left fold over the index/element pairs `v.enum`; the innermost
bound `re_idx < prb_data.size() && re_idx < 12` is the fold over
`(prb_data.take 12).enum`.

Divergence from the source: the declaration (`csi_logger.h:48`,
`csi_logger.cpp:94`) gives `channel_matrix` the type
`std::vector<std::vector<std::vector<std::complex<float>>>>`, three vector
levels, while the body (`csi_logger.cpp:111-117`) runs four nested loops and
takes `.size()` and `[re_idx]` of `channel_matrix[port][layer][prb_idx]`, and
the docstring (`csi_logger.h:38`) indexes the matrix `[port][layer][prb][re]`.
With the declared type `prb_data` is a `std::complex<float>` and lines 116-117
are ill-formed, so the function as shipped cannot be compiled or called. This
definition follows the body and the docstring and takes four nested lists:
it is the function with the missing vector level restored. What it says about
the traversal (number of rows, which row comes first, agreement with
`log_csi_simple`) holds for that restored function only; the part before the
loops (lazy `init`, the test of `is_open`) and the text of one row do not
depend on the nesting depth. -/
def log_csi {F : Type} (env : Env) (ops : FloatOps F)
    (slot_idx symbol_idx rnti prb_start nof_prb : Nat)
    (channel_matrix : List (List (List (List (complex F)))))
    (rsrp_db rsrq_db sinr_db : F) (s : csi_logger) : csi_logger :=
  let s1 := if !s.initialized_ then init env default_log_dir s else s
  if !s1.log_file_.is_open then s1
  else
    let ts := get_timestamp_string env s1
    let timestamp := ts.1
    let s2 := ts.2
    let s3 := channel_matrix.enum.foldl (fun acc pl =>
      pl.2.enum.foldl (fun acc lp =>
        lp.2.enum.foldl (fun acc bp =>
          (bp.2.take 12).enum.foldl (fun acc rv =>
            put_row (fun fmt => log_csi_row ops fmt timestamp slot_idx symbol_idx rnti
              prb_start nof_prb rsrp_db rsrq_db sinr_db pl.1 lp.1 bp.1 rv.1 rv.2) acc)
            acc) acc) acc) s2
    flush s3

/-- `csi_logger::log_csi_simple`. The outer bound
`prb_idx < channel_coeffs.size() && prb_idx < nof_prb` is the fold over
`(channel_coeffs.take nof_prb).enum`. -/
def log_csi_simple {F : Type} (env : Env) (ops : FloatOps F)
    (slot_idx symbol_idx rnti prb_start nof_prb : Nat)
    (channel_coeffs : List (List (complex F)))
    (rsrp_db : F) (s : csi_logger) : csi_logger :=
  let s1 := if !s.initialized_ then init env default_log_dir s else s
  if !s1.log_file_.is_open then s1
  else
    let ts := get_timestamp_string env s1
    let timestamp := ts.1
    let s2 := ts.2
    let s3 := (channel_coeffs.take nof_prb).enum.foldl (fun acc bp =>
      (bp.2.take 12).enum.foldl (fun acc rv =>
        put_row (fun fmt => log_csi_simple_row ops fmt timestamp slot_idx symbol_idx rnti
          prb_start nof_prb rsrp_db bp.1 rv.1 rv.2) acc)
        acc) s2
    flush s3

/-- `csi_logger::close`. -/
def close (s : csi_logger) : csi_logger :=
  let s1 : csi_logger :=
    if s.log_file_.is_open then
      { s with
        log_file_ := { s.log_file_ with is_open := false }
        trace := s.trace ++ [Event.fclose s.log_file_.path] }
    else s
  { s1 with initialized_ := false }

end csi_logger

/-! ## The rows of one call, as lists -/

/-- The index quadruples `(port, layer, prb_idx, re_idx)` and coefficients
visited by the four nested loops of `log_csi`, in the order of the visit. As
`csi_logger.log_csi`, it takes the four-level matrix of the body and the
docstring, not the three-level type of the declaration. -/
def csi_entries {F : Type} (channel_matrix : List (List (List (List (complex F))))) :
    List (Nat × Nat × Nat × Nat × complex F) :=
  channel_matrix.enum.flatMap fun pl =>
    pl.2.enum.flatMap fun lp =>
      lp.2.enum.flatMap fun bp =>
        (bp.2.take 12).enum.map fun rv => (pl.1, lp.1, bp.1, rv.1, rv.2)

/-- The index pairs `(prb_idx, re_idx)` and coefficients visited by the two
nested loops of `log_csi_simple`, in the order of the visit. -/
def simple_entries {F : Type} (nof_prb : Nat) (channel_coeffs : List (List (complex F))) :
    List (Nat × Nat × complex F) :=
  (channel_coeffs.take nof_prb).enum.flatMap fun bp =>
    (bp.2.take 12).enum.map fun rv => (bp.1, rv.1, rv.2)

/-- The text of the row `log_csi` writes for one entry (the text does not
depend on the format state the stream is in before the row). -/
def csi_row_text {F : Type} (ops : FloatOps F) (timestamp : String)
    (slot_idx symbol_idx rnti prb_start nof_prb : Nat) (rsrp_db rsrq_db sinr_db : F)
    (e : Nat × Nat × Nat × Nat × complex F) : String :=
  (csi_logger.log_csi_row ops FmtState.initial timestamp slot_idx symbol_idx rnti prb_start
    nof_prb rsrp_db rsrq_db sinr_db e.1 e.2.1 e.2.2.1 e.2.2.2.1 e.2.2.2.2).1

/-- The text of the row `log_csi_simple` writes for one entry (the text does
not depend on the format state the stream is in before the row). -/
def simple_row_text {F : Type} (ops : FloatOps F) (timestamp : String)
    (slot_idx symbol_idx rnti prb_start nof_prb : Nat) (rsrp_db : F)
    (e : Nat × Nat × complex F) : String :=
  (csi_logger.log_csi_simple_row ops FmtState.initial timestamp slot_idx symbol_idx rnti
    prb_start nof_prb rsrp_db e.1 e.2.1 e.2.2).1

/-- The format state left by `<< std::scientific << std::setprecision(6)`. -/
def sci6 : FmtState :=
  { floatfield := FloatField.scientific, precision := 6 }

/-- Whether an entry of `log_csi` satisfies
`port == 0 && layer == 0 && prb_idx == 0 && re_idx == 0`. -/
def is_first {F : Type} (e : Nat × Nat × Nat × Nat × complex F) : Bool :=
  e.1 == 0 && e.2.1 == 0 && e.2.2.1 == 0 && e.2.2.2.1 == 0

/-- Whether an entry of `log_csi_simple` satisfies `prb_idx == 0 && re_idx == 0`. -/
def is_first_simple {F : Type} (e : Nat × Nat × complex F) : Bool :=
  e.1 == 0 && e.2.1 == 0

/-- A trailing metric field as a CSV field: on the row that carries the
metrics the text of the value when it is a number, otherwise empty. -/
def metric_field {F : Type} (ops : FloatOps F) (carries : Bool) (x : F) : String :=
  if carries && !ops.isnan x then ops.render sci6 x else ""

/-- The 17 fields of the row `log_csi` writes for one entry, in the order of
the header. -/
def csi_row_fields {F : Type} (ops : FloatOps F) (timestamp : String)
    (slot_idx symbol_idx rnti prb_start nof_prb : Nat) (rsrp_db rsrq_db sinr_db : F)
    (e : Nat × Nat × Nat × Nat × complex F) : List String :=
  [timestamp, toString slot_idx, toString symbol_idx, toString rnti, toString prb_start,
    toString nof_prb, toString ((prb_start + e.2.2.1) % 18446744073709551616),
    toString e.2.2.2.1, toString e.1, toString e.2.1,
    ops.render sci6 e.2.2.2.2.real, ops.render sci6 e.2.2.2.2.imag,
    ops.render sci6 (ops.abs e.2.2.2.2), ops.render sci6 (ops.arg e.2.2.2.2),
    metric_field ops (is_first e) rsrp_db, metric_field ops (is_first e) rsrq_db,
    metric_field ops (is_first e) sinr_db]

/-- The 17 fields of the row `log_csi_simple` writes for one entry, in the
order of the header. -/
def simple_row_fields {F : Type} (ops : FloatOps F) (timestamp : String)
    (slot_idx symbol_idx rnti prb_start nof_prb : Nat) (rsrp_db : F)
    (e : Nat × Nat × complex F) : List String :=
  [timestamp, toString slot_idx, toString symbol_idx, toString rnti, toString prb_start,
    toString nof_prb, toString ((prb_start + e.1) % 18446744073709551616),
    toString e.2.1, "0", "0",
    ops.render sci6 e.2.2.real, ops.render sci6 e.2.2.imag,
    ops.render sci6 (ops.abs e.2.2), ops.render sci6 (ops.arg e.2.2),
    metric_field ops (is_first_simple e) rsrp_db, "", ""]

/-- Whether `channel_matrix[0][0][0]` exists and has at least one element. -/
def first_prb_nonempty {F : Type} :
    List (List (List (List (complex F)))) → Bool
  | (((_ :: _) :: _) :: _) :: _ => true
  | _ => false

/-- The channel matrix has the rectangular shape `P x L x B x R`. -/
def has_shape {F : Type} (P L B R : Nat)
    (channel_matrix : List (List (List (List (complex F))))) : Prop :=
  channel_matrix.length = P ∧
    ∀ layers ∈ channel_matrix, layers.length = L ∧
      ∀ prbs ∈ layers, prbs.length = B ∧
        ∀ res ∈ prbs, res.length = R

/-! ## Traces -/

/-- The effect of one event on the list of files the process holds open. -/
def open_files_step (acc : List String) : Event → List String
  | Event.fopen path true => acc ++ [path]
  | Event.fclose path => acc.erase path
  | _ => acc

/-- The files the process holds open after a trace: those opened with
success and not closed since. -/
def open_files (t : List Event) : List String :=
  t.foldl open_files_step []

/-- The events that close a file before a new one is opened in
`rotate_file`. -/
def close_events (f : ofstream) : List Event :=
  if f.is_open then [Event.fclose f.path] else []

/-- The events of `rotate_file` from the attempt to open `path` on. -/
def open_events (path : String) (ok : Bool) : List Event :=
  Event.fopen path ok ::
    (if ok then [Event.fwrite path csv_header, Event.fflush path]
     else [Event.cerr ("Error opening CSI log file: " ++ path ++ "\n")])

/-! ## Sequences of calls -/

/-- The states the logger can be in: the state at program start and every
state a public member function produces from such a state. -/
inductive Reachable {F : Type} (env : Env) (ops : FloatOps F) : csi_logger → Prop
  | initial : Reachable env ops csi_logger.initial
  | init (s : csi_logger) (log_dir : String) :
      Reachable env ops s → Reachable env ops (csi_logger.init env log_dir s)
  | log_csi (s : csi_logger) (slot_idx symbol_idx rnti prb_start nof_prb : Nat)
      (channel_matrix : List (List (List (List (complex F))))) (rsrp_db rsrq_db sinr_db : F) :
      Reachable env ops s →
      Reachable env ops (csi_logger.log_csi env ops slot_idx symbol_idx rnti prb_start nof_prb
        channel_matrix rsrp_db rsrq_db sinr_db s)
  | log_csi_simple (s : csi_logger) (slot_idx symbol_idx rnti prb_start nof_prb : Nat)
      (channel_coeffs : List (List (complex F))) (rsrp_db : F) :
      Reachable env ops s →
      Reachable env ops (csi_logger.log_csi_simple env ops slot_idx symbol_idx rnti prb_start
        nof_prb channel_coeffs rsrp_db s)
  | close (s : csi_logger) : Reachable env ops s → Reachable env ops (csi_logger.close s)

/-- The invariant of the logger: an open file implies `initialized_`, and
the files the process holds open are exactly the one attached to
`log_file_`, if any. -/
def Inv (s : csi_logger) : Prop :=
  (s.log_file_.is_open = true → s.initialized_ = true) ∧
    open_files s.trace = (if s.log_file_.is_open then [s.log_file_.path] else [])

/-! ## Decimal text -/

/-- The number a list of decimal digit characters denotes, most significant first. -/
def decimal_value (l : List Char) : Nat :=
  l.foldl (fun acc ch => acc * 10 + (ch.toNat - 48)) 0

/-! ## Concrete inputs for evaluating the model -/

/-- A small stand-in for `float`: `none` is NaN, `some n` the number `n`. -/
def toyFloat : FloatOps (Option Nat) :=
  { isnan := fun x => x.isNone
    abs := fun c => c.real
    arg := fun c => c.imag
    render := fun fmt x =>
      match x with
      | none => "nan"
      | some n =>
        match fmt.floatfield with
        | FloatField.scientific =>
          toString n ++ "." ++ String.mk (List.replicate fmt.precision '0') ++ "e+00"
        | _ => toString n }

/-- An outside world in which everything succeeds and the clock stands still. -/
def calmEnv : Env :=
  { now := fun _ => { epoch_ms := 1700000000042, local_tm :=
      { tm_year := 124, tm_mon := 0, tm_mday := 2, tm_hour := 3, tm_min := 4, tm_sec := 5 } }
    create_directories := fun _ _ => none
    open_ok := fun _ _ => true }

/-- An outside world in which the default directory cannot be created. -/
def stormEnv : Env :=
  { now := calmEnv.now
    create_directories := fun _ dir =>
      if dir = "/tmp/csi_logs" then some "Permission denied" else none
    open_ok := fun _ _ => true }

/-- A logger on which `init` has succeeded once, in the calm world. -/
def demo_state : csi_logger :=
  csi_logger.init calmEnv "/var/log/csi" csi_logger.initial

/-- A logger after a successful `init` and a `close`, in the stormy world. -/
def closed_state : csi_logger :=
  csi_logger.close (csi_logger.init stormEnv "/var/log/csi" csi_logger.initial)

/-- A logger whose rotation counter has the largest value of a `uint64_t`. -/
def saturated_state : csi_logger :=
  { csi_logger.initial with file_rotation_counter_ := 18446744073709551615 }

/-- A channel matrix of shape `1 x 2 x 2 x 13`. -/
def demo_matrix : List (List (List (List (complex (Option Nat))))) :=
  [[[List.replicate 13 ⟨some 1, some 2⟩, List.replicate 13 ⟨some 3, none⟩],
    [List.replicate 13 ⟨some 5, some 6⟩, List.replicate 13 ⟨none, some 8⟩]]]

/-- A ragged channel matrix: one port, one layer, a first PRB without
resource elements and a second PRB with one. -/
def ragged_matrix : List (List (List (List (complex (Option Nat))))) :=
  [[[[], [⟨some 1, some 2⟩]]]]

/-- Channel coefficients for `log_csi_simple`: three PRBs of 13 elements. -/
def demo_coeffs : List (List (complex (Option Nat))) :=
  [List.replicate 13 ⟨some 1, some 2⟩, List.replicate 13 ⟨some 3, none⟩,
    List.replicate 13 ⟨some 5, some 6⟩]

/-! ## Sequences of log calls -/

/-- One call of `log_csi` or of `log_csi_simple`, with its arguments. -/
inductive log_call (F : Type)
  | csi (slot_idx symbol_idx rnti prb_start nof_prb : Nat)
      (channel_matrix : List (List (List (List (complex F))))) (rsrp_db rsrq_db sinr_db : F)
  | simple (slot_idx symbol_idx rnti prb_start nof_prb : Nat)
      (channel_coeffs : List (List (complex F))) (rsrp_db : F)

/-- The state after one log call. -/
def do_call {F : Type} (env : Env) (ops : FloatOps F) : log_call F → csi_logger → csi_logger
  | log_call.csi slot_idx symbol_idx rnti prb_start nof_prb channel_matrix rsrp_db rsrq_db
      sinr_db, s =>
    csi_logger.log_csi env ops slot_idx symbol_idx rnti prb_start nof_prb channel_matrix
      rsrp_db rsrq_db sinr_db s
  | log_call.simple slot_idx symbol_idx rnti prb_start nof_prb channel_coeffs rsrp_db, s =>
    csi_logger.log_csi_simple env ops slot_idx symbol_idx rnti prb_start nof_prb
      channel_coeffs rsrp_db s

/-- The state after a sequence of log calls, one after the other, with no
`init` or `close` in between. -/
def run_calls {F : Type} (env : Env) (ops : FloatOps F) (calls : List (log_call F))
    (s : csi_logger) : csi_logger :=
  calls.foldl (fun acc c => do_call env ops c acc) s

/-- Whether an event is a call of `std::filesystem::create_directories`, that
is, an execution of `init`. -/
def is_create_directories : Event → Bool
  | Event.create_directories _ _ => true
  | _ => false

/-- Whether an event is an attempt to open a file, that is, a rotation. -/
def is_fopen : Event → Bool
  | Event.fopen _ _ => true
  | _ => false

/-- Whether an event writes the CSV header. -/
def is_header_write : Event → Bool
  | Event.fwrite _ text => text == csv_header
  | _ => false

/-- An outside world in which directories can be created but no file can be
opened. -/
def sealedEnv : Env :=
  { now := calmEnv.now
    create_directories := fun _ _ => none
    open_ok := fun _ _ => false }

/-- Two log calls for evaluating the model. -/
def demo_calls : List (log_call (Option Nat)) :=
  [log_call.csi 1 2 3 4 5 demo_matrix (some 9) none (some 11),
    log_call.simple 1 2 3 4 2 demo_coeffs (some 9)]

/-! ## Commas and the single-port case -/

/-- The number of commas in a text. -/
def comma_count (text : String) : Nat :=
  text.data.count ','

/-- The entry of `log_csi` on the one-port one-layer matrix `[[channel_coeffs]]`
that corresponds to an entry of `log_csi_simple`. -/
def lift_entry {F : Type} (e : Nat × Nat × complex F) : Nat × Nat × Nat × Nat × complex F :=
  (0, 0, e.1, e.2.1, e.2.2)

/-! ## Decimal fields of the file name -/

/-- A text is a decimal field: exactly `width` characters, all of them decimal
digits, denoting `value`. -/
def is_decimal_field (text : String) (width value : Nat) : Prop :=
  text.length = width ∧ (∀ ch ∈ text.data, ch.isDigit = true) ∧
    decimal_value text.data = value

/-- A broken-down local time as `std::localtime` returns it for a clock
reading with a four-digit year: `tm_year` counts from 1900, `tm_mon` from 0. -/
def valid_tm (t : tm) : Prop :=
  1000 ≤ t.tm_year + 1900 ∧ t.tm_year + 1900 ≤ 9999 ∧ t.tm_mon ≤ 11 ∧
    1 ≤ t.tm_mday ∧ t.tm_mday ≤ 31 ∧ t.tm_hour ≤ 23 ∧ t.tm_min ≤ 59 ∧ t.tm_sec ≤ 60

/-! ## Lemmas on the loops -/

theorem foldl_flatMap_eq {α β σ : Type} (l : List α) (f : α → List β) (g : σ → β → σ)
    (init : σ) :
    (l.flatMap f).foldl g init = l.foldl (fun acc a => (f a).foldl g acc) init := by
  induction l generalizing init with
  | nil => rfl
  | cons a l ih => simp [List.flatMap_cons, List.foldl_append, ih]

theorem length_flatMap_const {α β : Type} (l : List α) (f : α → List β) (c : Nat)
    (h : ∀ a ∈ l, (f a).length = c) : (l.flatMap f).length = l.length * c := by
  induction l with
  | nil => simp
  | cons a l ih =>
    have h1 : (f a).length = c := h a (List.mem_cons_self a l)
    have h2 : (l.flatMap f).length = l.length * c :=
      ih (fun b hb => h b (List.mem_cons_of_mem a hb))
    simp [List.flatMap_cons, h1, h2, Nat.succ_mul, Nat.add_comm]

theorem snd_mem_of_mem_enum {α : Type} {l : List α} {p : Nat × α} (h : p ∈ l.enum) :
    p.2 ∈ l := by
  obtain ⟨i, x⟩ := p
  have := List.mem_enum h
  rw [this.2]
  exact List.getElem_mem _

theorem log_csi_loops_eq {F : Type}
    (f : Nat × Nat × Nat × Nat × complex F → csi_logger → csi_logger)
    (channel_matrix : List (List (List (List (complex F))))) (s : csi_logger) :
    channel_matrix.enum.foldl (fun acc pl =>
      pl.2.enum.foldl (fun acc lp =>
        lp.2.enum.foldl (fun acc bp =>
          (bp.2.take 12).enum.foldl (fun acc rv =>
            f (pl.1, lp.1, bp.1, rv.1, rv.2) acc) acc) acc) acc) s
      = (csi_entries channel_matrix).foldl (fun acc e => f e acc) s := by
  simp only [csi_entries, foldl_flatMap_eq, List.foldl_map]

theorem log_csi_simple_loops_eq {F : Type}
    (f : Nat × Nat × complex F → csi_logger → csi_logger) (nof_prb : Nat)
    (channel_coeffs : List (List (complex F))) (s : csi_logger) :
    (channel_coeffs.take nof_prb).enum.foldl (fun acc bp =>
      (bp.2.take 12).enum.foldl (fun acc rv => f (bp.1, rv.1, rv.2) acc) acc) s
      = (simple_entries nof_prb channel_coeffs).foldl (fun acc e => f e acc) s := by
  simp only [simple_entries, foldl_flatMap_eq, List.foldl_map]

/-- The state after a run of rows: the rows are appended to the attached
file, in order, and the stream is left in scientific format with precision 6
as soon as one row has been written. Nothing else changes. -/
theorem foldl_put_row {α : Type} (text : α → String)
    (row : α → FmtState → String × FmtState)
    (hrow : ∀ a fmt, row a fmt = (text a, fmt.scientific6))
    (es : List α) (s : csi_logger) :
    es.foldl (fun acc e => csi_logger.put_row (row e) acc) s
      = { s with
          log_file_ := { s.log_file_ with
            fmt := if es.isEmpty then s.log_file_.fmt else s.log_file_.fmt.scientific6 }
          trace := s.trace ++ es.map (fun e => Event.fwrite s.log_file_.path (text e)) } := by
  induction es generalizing s with
  | nil => simp
  | cons e es ih =>
    rw [List.foldl_cons, ih]
    cases es <;> simp [csi_logger.put_row, hrow, FmtState.scientific6]

/-- What `log_csi` does when the logger is initialized and a file is open. -/
theorem log_csi_open_eq {F : Type} (env : Env) (ops : FloatOps F)
    (slot_idx symbol_idx rnti prb_start nof_prb : Nat)
    (channel_matrix : List (List (List (List (complex F)))))
    (rsrp_db rsrq_db sinr_db : F) (s : csi_logger)
    (hi : s.initialized_ = true) (ho : s.log_file_.is_open = true) :
    csi_logger.log_csi env ops slot_idx symbol_idx rnti prb_start nof_prb channel_matrix
        rsrp_db rsrq_db sinr_db s
      = { s with
          log_file_ := { s.log_file_ with
            fmt := if (csi_entries channel_matrix).isEmpty then s.log_file_.fmt
              else s.log_file_.fmt.scientific6 }
          tick := s.tick + 1
          trace := s.trace ++ (csi_entries channel_matrix).map (fun e =>
              Event.fwrite s.log_file_.path
                (csi_row_text ops (csi_logger.get_timestamp_string env s).1 slot_idx symbol_idx
                  rnti prb_start nof_prb rsrp_db rsrq_db sinr_db e))
            ++ [Event.fflush s.log_file_.path] } := by
  have h := log_csi_loops_eq (fun e acc =>
    csi_logger.put_row (fun fmt => csi_logger.log_csi_row ops fmt
      (csi_logger.get_timestamp_string env s).1 slot_idx symbol_idx rnti prb_start nof_prb
      rsrp_db rsrq_db sinr_db e.1 e.2.1 e.2.2.1 e.2.2.2.1 e.2.2.2.2) acc)
    channel_matrix (csi_logger.get_timestamp_string env s).2
  have h2 := foldl_put_row
    (csi_row_text ops (csi_logger.get_timestamp_string env s).1 slot_idx symbol_idx
      rnti prb_start nof_prb rsrp_db rsrq_db sinr_db)
    (fun e fmt => csi_logger.log_csi_row ops fmt
      (csi_logger.get_timestamp_string env s).1 slot_idx symbol_idx rnti prb_start nof_prb
      rsrp_db rsrq_db sinr_db e.1 e.2.1 e.2.2.1 e.2.2.2.1 e.2.2.2.2)
    (fun _ _ => rfl) (csi_entries channel_matrix) (csi_logger.get_timestamp_string env s).2
  dsimp only at h
  unfold csi_logger.log_csi
  simp only [hi, ho, Bool.not_true, Bool.false_eq_true, if_false]
  rw [h, h2]
  simp [csi_logger.flush, csi_logger.get_timestamp_string, hi, ho]

/-- What `log_csi_simple` does when the logger is initialized and a file is
open. -/
theorem log_csi_simple_open_eq {F : Type} (env : Env) (ops : FloatOps F)
    (slot_idx symbol_idx rnti prb_start nof_prb : Nat)
    (channel_coeffs : List (List (complex F))) (rsrp_db : F) (s : csi_logger)
    (hi : s.initialized_ = true) (ho : s.log_file_.is_open = true) :
    csi_logger.log_csi_simple env ops slot_idx symbol_idx rnti prb_start nof_prb
        channel_coeffs rsrp_db s
      = { s with
          log_file_ := { s.log_file_ with
            fmt := if (simple_entries nof_prb channel_coeffs).isEmpty then s.log_file_.fmt
              else s.log_file_.fmt.scientific6 }
          tick := s.tick + 1
          trace := s.trace ++ (simple_entries nof_prb channel_coeffs).map (fun e =>
              Event.fwrite s.log_file_.path
                (simple_row_text ops (csi_logger.get_timestamp_string env s).1 slot_idx
                  symbol_idx rnti prb_start nof_prb rsrp_db e))
            ++ [Event.fflush s.log_file_.path] } := by
  have h := log_csi_simple_loops_eq (fun e acc =>
    csi_logger.put_row (fun fmt => csi_logger.log_csi_simple_row ops fmt
      (csi_logger.get_timestamp_string env s).1 slot_idx symbol_idx rnti prb_start nof_prb
      rsrp_db e.1 e.2.1 e.2.2) acc)
    nof_prb channel_coeffs (csi_logger.get_timestamp_string env s).2
  have h2 := foldl_put_row
    (simple_row_text ops (csi_logger.get_timestamp_string env s).1 slot_idx symbol_idx
      rnti prb_start nof_prb rsrp_db)
    (fun e fmt => csi_logger.log_csi_simple_row ops fmt
      (csi_logger.get_timestamp_string env s).1 slot_idx symbol_idx rnti prb_start nof_prb
      rsrp_db e.1 e.2.1 e.2.2)
    (fun _ _ => rfl) (simple_entries nof_prb channel_coeffs)
    (csi_logger.get_timestamp_string env s).2
  dsimp only at h
  unfold csi_logger.log_csi_simple
  simp only [hi, ho, Bool.not_true, Bool.false_eq_true, if_false]
  rw [h, h2]
  simp [csi_logger.flush, csi_logger.get_timestamp_string, hi, ho]

/-! ## Lemmas on rotation, `init` and `close` -/

/-- The whole effect of `rotate_file`. -/
theorem rotate_file_eq (env : Env) (s : csi_logger) :
    csi_logger.rotate_file env s
      = { log_file_ :=
            { is_open := env.open_ok (s.tick + 1)
                (csi_logger.file_name s.log_dir_ (env.now s.tick) s.file_rotation_counter_)
              path := csi_logger.file_name s.log_dir_ (env.now s.tick) s.file_rotation_counter_
              fmt := s.log_file_.fmt }
          log_dir_ := s.log_dir_
          current_file_ :=
            csi_logger.file_name s.log_dir_ (env.now s.tick) s.file_rotation_counter_
          initialized_ := s.initialized_
          file_rotation_counter_ := (s.file_rotation_counter_ + 1) % 18446744073709551616
          tick := s.tick + 2
          trace := s.trace ++ close_events s.log_file_
            ++ open_events
              (csi_logger.file_name s.log_dir_ (env.now s.tick) s.file_rotation_counter_)
              (env.open_ok (s.tick + 1)
                (csi_logger.file_name s.log_dir_ (env.now s.tick) s.file_rotation_counter_)) } := by
  unfold csi_logger.rotate_file close_events open_events
  by_cases h1 : s.log_file_.is_open = true <;>
  by_cases h2 : env.open_ok (s.tick + 1)
      (csi_logger.file_name s.log_dir_ (env.now s.tick) s.file_rotation_counter_) = true <;>
  simp [h1, h2]

/-- The whole effect of `init` when the directory can be created. -/
theorem init_ok_eq (env : Env) (log_dir : String) (s : csi_logger)
    (hdir : env.create_directories s.tick log_dir = none) :
    csi_logger.init env log_dir s
      = { log_file_ :=
            { is_open := env.open_ok (s.tick + 2)
                (csi_logger.file_name log_dir (env.now (s.tick + 1)) s.file_rotation_counter_)
              path := csi_logger.file_name log_dir (env.now (s.tick + 1)) s.file_rotation_counter_
              fmt := s.log_file_.fmt }
          log_dir_ := log_dir
          current_file_ :=
            csi_logger.file_name log_dir (env.now (s.tick + 1)) s.file_rotation_counter_
          initialized_ := true
          file_rotation_counter_ := (s.file_rotation_counter_ + 1) % 18446744073709551616
          tick := s.tick + 3
          trace := s.trace ++ [Event.create_directories log_dir true]
            ++ close_events s.log_file_
            ++ open_events
              (csi_logger.file_name log_dir (env.now (s.tick + 1)) s.file_rotation_counter_)
              (env.open_ok (s.tick + 2)
                (csi_logger.file_name log_dir (env.now (s.tick + 1)) s.file_rotation_counter_))
            ++ [Event.cout ("CSI Logger initialized. Logging to: "
              ++ csi_logger.file_name log_dir (env.now (s.tick + 1)) s.file_rotation_counter_
              ++ "\n")] } := by
  unfold csi_logger.init
  simp only [hdir, rotate_file_eq]

/-- The whole effect of `init` when creating the directory throws. -/
theorem init_fail_eq (env : Env) (log_dir : String) (s : csi_logger) (what : String)
    (hdir : env.create_directories s.tick log_dir = some what) :
    csi_logger.init env log_dir s
      = { s with
          log_dir_ := log_dir
          tick := s.tick + 1
          trace := s.trace ++ [Event.create_directories log_dir false,
            Event.cerr ("Error creating CSI log directory: " ++ what ++ "\n")] } := by
  unfold csi_logger.init
  simp only [hdir]

/-- The whole effect of `close`. -/
theorem close_eq (s : csi_logger) :
    csi_logger.close s
      = { s with
          log_file_ := { s.log_file_ with is_open := false }
          initialized_ := false
          trace := s.trace ++ close_events s.log_file_ } := by
  unfold csi_logger.close close_events
  by_cases h : s.log_file_.is_open = true
  · simp [h]
  · cases s with
    | mk f d c i n k t =>
      cases f with
      | mk o p m =>
        simp only [Bool.not_eq_true] at h
        subst h
        simp

theorem open_files_append (t u : List Event) :
    open_files (t ++ u) = u.foldl open_files_step (open_files t) := by
  simp [open_files, List.foldl_append]

theorem open_files_writes {α : Type} (acc : List String) (path : String) (text : α → String)
    (es : List α) :
    (es.map (fun e => Event.fwrite path (text e))).foldl open_files_step acc = acc := by
  induction es with
  | nil => rfl
  | cons e es ih => simpa [open_files_step] using ih

/-- Closing the attached file, if any, and opening `path` leaves exactly
`path` open when the opening succeeds, and nothing otherwise. -/
theorem open_files_reopen (acc : List String) (f : ofstream) (path : String) (ok : Bool)
    (h : acc = (if f.is_open then [f.path] else [])) :
    (open_events path ok).foldl open_files_step ((close_events f).foldl open_files_step acc)
      = (if ok then [path] else []) := by
  subst h
  cases f with
  | mk o p m =>
    cases o <;> cases ok <;> simp [close_events, open_events, open_files_step]

theorem Inv_initial : Inv csi_logger.initial := by
  simp [Inv, csi_logger.initial, open_files]

theorem Inv_init (env : Env) (log_dir : String) (s : csi_logger) (h : Inv s) :
    Inv (csi_logger.init env log_dir s) := by
  cases hdir : env.create_directories s.tick log_dir with
  | some what =>
    rw [init_fail_eq env log_dir s what hdir]
    refine ⟨h.1, ?_⟩
    simp only [open_files_append, h.2]
    simp [open_files_step]
  | none =>
    rw [init_ok_eq env log_dir s hdir]
    refine ⟨fun _ => rfl, ?_⟩
    simp only [List.append_assoc, open_files_append, List.foldl_append]
    have h1 : List.foldl open_files_step (open_files s.trace)
        [Event.create_directories log_dir true] = open_files s.trace := by
      simp [open_files_step]
    rw [h1, open_files_reopen _ s.log_file_ _ _ h.2]
    simp [open_files_step]

theorem Inv_close (s : csi_logger) (h : Inv s) : Inv (csi_logger.close s) := by
  rw [close_eq]
  refine ⟨fun h0 => by simp at h0, ?_⟩
  simp only [open_files_append, h.2]
  cases s with
  | mk f d c i n k t =>
    cases f with
    | mk o p m => cases o <;> simp [close_events, open_files_step]

/-! ## Lemmas on the lazy initialization of the log calls -/

theorem log_csi_closed_eq {F : Type} (env : Env) (ops : FloatOps F)
    (slot_idx symbol_idx rnti prb_start nof_prb : Nat)
    (channel_matrix : List (List (List (List (complex F)))))
    (rsrp_db rsrq_db sinr_db : F) (s : csi_logger)
    (hi : s.initialized_ = true) (hc : s.log_file_.is_open = false) :
    csi_logger.log_csi env ops slot_idx symbol_idx rnti prb_start nof_prb channel_matrix
        rsrp_db rsrq_db sinr_db s = s := by
  unfold csi_logger.log_csi
  simp [hi, hc]

theorem log_csi_uninit_eq {F : Type} (env : Env) (ops : FloatOps F)
    (slot_idx symbol_idx rnti prb_start nof_prb : Nat)
    (channel_matrix : List (List (List (List (complex F)))))
    (rsrp_db rsrq_db sinr_db : F) (s : csi_logger)
    (hi : s.initialized_ = false)
    (h : (csi_logger.init env default_log_dir s).log_file_.is_open = true →
      (csi_logger.init env default_log_dir s).initialized_ = true) :
    csi_logger.log_csi env ops slot_idx symbol_idx rnti prb_start nof_prb channel_matrix
        rsrp_db rsrq_db sinr_db s
      = if (csi_logger.init env default_log_dir s).log_file_.is_open then
          csi_logger.log_csi env ops slot_idx symbol_idx rnti prb_start nof_prb channel_matrix
            rsrp_db rsrq_db sinr_db (csi_logger.init env default_log_dir s)
        else csi_logger.init env default_log_dir s := by
  by_cases ho : (csi_logger.init env default_log_dir s).log_file_.is_open = true
  · have hi2 := h ho
    rw [if_pos ho]
    unfold csi_logger.log_csi
    simp [hi, hi2, ho]
  · rw [if_neg ho]
    unfold csi_logger.log_csi
    simp [hi, ho]

theorem log_csi_simple_closed_eq {F : Type} (env : Env) (ops : FloatOps F)
    (slot_idx symbol_idx rnti prb_start nof_prb : Nat)
    (channel_coeffs : List (List (complex F))) (rsrp_db : F) (s : csi_logger)
    (hi : s.initialized_ = true) (hc : s.log_file_.is_open = false) :
    csi_logger.log_csi_simple env ops slot_idx symbol_idx rnti prb_start nof_prb channel_coeffs
        rsrp_db s = s := by
  unfold csi_logger.log_csi_simple
  simp [hi, hc]

theorem log_csi_simple_uninit_eq {F : Type} (env : Env) (ops : FloatOps F)
    (slot_idx symbol_idx rnti prb_start nof_prb : Nat)
    (channel_coeffs : List (List (complex F))) (rsrp_db : F) (s : csi_logger)
    (hi : s.initialized_ = false)
    (h : (csi_logger.init env default_log_dir s).log_file_.is_open = true →
      (csi_logger.init env default_log_dir s).initialized_ = true) :
    csi_logger.log_csi_simple env ops slot_idx symbol_idx rnti prb_start nof_prb
        channel_coeffs rsrp_db s
      = if (csi_logger.init env default_log_dir s).log_file_.is_open then
          csi_logger.log_csi_simple env ops slot_idx symbol_idx rnti prb_start nof_prb
            channel_coeffs rsrp_db (csi_logger.init env default_log_dir s)
        else csi_logger.init env default_log_dir s := by
  by_cases ho : (csi_logger.init env default_log_dir s).log_file_.is_open = true
  · have hi2 := h ho
    rw [if_pos ho]
    unfold csi_logger.log_csi_simple
    simp [hi, hi2, ho]
  · rw [if_neg ho]
    unfold csi_logger.log_csi_simple
    simp [hi, ho]

/-- A log call on an initialized logger with an open file keeps the
invariant: it only writes to and flushes the attached file. -/
theorem Inv_rows {α : Type} (s : csi_logger) (h : Inv s) (fmt : FmtState) (k : Nat)
    (text : α → String) (es : List α) :
    Inv { s with
      log_file_ := { s.log_file_ with fmt := fmt }
      tick := k
      trace := s.trace ++ es.map (fun e => Event.fwrite s.log_file_.path (text e))
        ++ [Event.fflush s.log_file_.path] } := by
  refine ⟨h.1, ?_⟩
  simp only [open_files_append, open_files_writes, h.2]
  simp [open_files_step]

theorem Inv_log_csi_init {F : Type} (env : Env) (ops : FloatOps F)
    (slot_idx symbol_idx rnti prb_start nof_prb : Nat)
    (channel_matrix : List (List (List (List (complex F)))))
    (rsrp_db rsrq_db sinr_db : F) (s : csi_logger) (h : Inv s)
    (hi : s.initialized_ = true) :
    Inv (csi_logger.log_csi env ops slot_idx symbol_idx rnti prb_start nof_prb channel_matrix
      rsrp_db rsrq_db sinr_db s) := by
  by_cases ho : s.log_file_.is_open = true
  · rw [log_csi_open_eq _ _ _ _ _ _ _ _ _ _ _ _ hi ho]
    exact Inv_rows s h _ _ _ _
  · simp only [Bool.not_eq_true] at ho
    rw [log_csi_closed_eq _ _ _ _ _ _ _ _ _ _ _ _ hi ho]
    exact h

theorem Inv_log_csi {F : Type} (env : Env) (ops : FloatOps F)
    (slot_idx symbol_idx rnti prb_start nof_prb : Nat)
    (channel_matrix : List (List (List (List (complex F)))))
    (rsrp_db rsrq_db sinr_db : F) (s : csi_logger) (h : Inv s) :
    Inv (csi_logger.log_csi env ops slot_idx symbol_idx rnti prb_start nof_prb channel_matrix
      rsrp_db rsrq_db sinr_db s) := by
  by_cases hi : s.initialized_ = true
  · exact Inv_log_csi_init _ _ _ _ _ _ _ _ _ _ _ s h hi
  · simp only [Bool.not_eq_true] at hi
    have h1 := Inv_init env default_log_dir s h
    rw [log_csi_uninit_eq _ _ _ _ _ _ _ _ _ _ _ s hi h1.1]
    split
    · rename_i ho
      exact Inv_log_csi_init _ _ _ _ _ _ _ _ _ _ _ _ h1 (h1.1 ho)
    · exact h1

theorem Inv_log_csi_simple_init {F : Type} (env : Env) (ops : FloatOps F)
    (slot_idx symbol_idx rnti prb_start nof_prb : Nat)
    (channel_coeffs : List (List (complex F))) (rsrp_db : F) (s : csi_logger) (h : Inv s)
    (hi : s.initialized_ = true) :
    Inv (csi_logger.log_csi_simple env ops slot_idx symbol_idx rnti prb_start nof_prb
      channel_coeffs rsrp_db s) := by
  by_cases ho : s.log_file_.is_open = true
  · rw [log_csi_simple_open_eq _ _ _ _ _ _ _ _ _ _ hi ho]
    exact Inv_rows s h _ _ _ _
  · simp only [Bool.not_eq_true] at ho
    rw [log_csi_simple_closed_eq _ _ _ _ _ _ _ _ _ _ hi ho]
    exact h

theorem Inv_log_csi_simple {F : Type} (env : Env) (ops : FloatOps F)
    (slot_idx symbol_idx rnti prb_start nof_prb : Nat)
    (channel_coeffs : List (List (complex F))) (rsrp_db : F) (s : csi_logger) (h : Inv s) :
    Inv (csi_logger.log_csi_simple env ops slot_idx symbol_idx rnti prb_start nof_prb
      channel_coeffs rsrp_db s) := by
  by_cases hi : s.initialized_ = true
  · exact Inv_log_csi_simple_init _ _ _ _ _ _ _ _ _ s h hi
  · simp only [Bool.not_eq_true] at hi
    have h1 := Inv_init env default_log_dir s h
    rw [log_csi_simple_uninit_eq _ _ _ _ _ _ _ _ _ s hi h1.1]
    split
    · rename_i ho
      exact Inv_log_csi_simple_init _ _ _ _ _ _ _ _ _ _ h1 (h1.1 ho)
    · exact h1

/-- Every reachable state satisfies the invariant. -/
theorem Reachable.inv {F : Type} {env : Env} {ops : FloatOps F} {s : csi_logger}
    (h : Reachable env ops s) : Inv s := by
  induction h with
  | initial => exact Inv_initial
  | init s log_dir _ ih => exact Inv_init env log_dir s ih
  | log_csi s a b c d e cm x y z _ ih => exact Inv_log_csi env ops a b c d e cm x y z s ih
  | log_csi_simple s a b c d e cc x _ ih =>
    exact Inv_log_csi_simple env ops a b c d e cc x s ih
  | close s _ ih => exact Inv_close s ih

/-! ## Row counts -/

theorem csi_entries_length {F : Type} (P L B R : Nat)
    (channel_matrix : List (List (List (List (complex F)))))
    (h : has_shape P L B R channel_matrix) :
    (csi_entries channel_matrix).length = P * L * B * min R 12 := by
  obtain ⟨hP, hrest⟩ := h
  unfold csi_entries
  rw [length_flatMap_const _ _ (L * (B * min R 12)), List.enum_length, hP]
  · simp [Nat.mul_assoc]
  · intro pl hpl
    obtain ⟨hL, hrest2⟩ := hrest pl.2 (snd_mem_of_mem_enum hpl)
    rw [length_flatMap_const _ _ (B * min R 12), List.enum_length, hL]
    intro lp hlp
    obtain ⟨hB, hrest3⟩ := hrest2 lp.2 (snd_mem_of_mem_enum hlp)
    rw [length_flatMap_const _ _ (min R 12), List.enum_length, hB]
    intro bp hbp
    have hR := hrest3 bp.2 (snd_mem_of_mem_enum hbp)
    simp [List.enum_length, List.length_take, hR, Nat.min_comm]

theorem fst_lt_of_mem_enum {α : Type} {l : List α} {p : Nat × α} (h : p ∈ l.enum) :
    p.1 < l.length := by
  obtain ⟨i, x⟩ := p
  exact (List.mem_enum h).1

theorem csi_entries_re_lt {F : Type}
    (channel_matrix : List (List (List (List (complex F)))))
    (e : Nat × Nat × Nat × Nat × complex F) (h : e ∈ csi_entries channel_matrix) :
    e.2.2.2.1 < 12 := by
  simp only [csi_entries, List.mem_flatMap, List.mem_map] at h
  obtain ⟨pl, _, lp, _, bp, _, rv, hrv, rfl⟩ := h
  have := fst_lt_of_mem_enum hrv
  simp only [List.length_take] at this
  exact lt_of_lt_of_le this (Nat.min_le_left _ _)

/-- Supporting C1 (a defect of the declared parameter type, see
`csi_logger.log_csi`): on the four-level matrix of the body and the docstring,
for a channel matrix of rectangular shape `P x L x B x R` and a
reachable logger state with a file open, `log_csi` appends to the trace
exactly one write to the open file per visited entry, followed by one flush;
there are `P * L * B * min R 12` entries, all with resource-element index
below 12, whatever the other arguments are. -/
theorem log_csi_row_count {F : Type} (env : Env) (ops : FloatOps F)
    (slot_idx symbol_idx rnti prb_start nof_prb : Nat)
    (channel_matrix : List (List (List (List (complex F)))))
    (rsrp_db rsrq_db sinr_db : F) (P L B R : Nat) (s : csi_logger)
    (hs : Reachable env ops s) (ho : s.log_file_.is_open = true)
    (hshape : has_shape P L B R channel_matrix) :
    (csi_entries channel_matrix).length = P * L * B * min R 12 ∧
    (∀ e ∈ csi_entries channel_matrix, e.2.2.2.1 < 12) ∧
    (csi_logger.log_csi env ops slot_idx symbol_idx rnti prb_start nof_prb channel_matrix
        rsrp_db rsrq_db sinr_db s).trace
      = s.trace ++ (csi_entries channel_matrix).map (fun e =>
          Event.fwrite s.log_file_.path
            (csi_row_text ops (csi_logger.get_timestamp_string env s).1 slot_idx symbol_idx
              rnti prb_start nof_prb rsrp_db rsrq_db sinr_db e))
        ++ [Event.fflush s.log_file_.path] := by
  refine ⟨csi_entries_length P L B R channel_matrix hshape,
    csi_entries_re_lt channel_matrix, ?_⟩
  rw [log_csi_open_eq _ _ _ _ _ _ _ _ _ _ _ s (hs.inv.1 ho) ho]

theorem log_csi_row_count_witness :
    (csi_entries demo_matrix).length = 1 * 2 * 2 * min 13 12 ∧
    (∀ e ∈ csi_entries demo_matrix, e.2.2.2.1 < 12) ∧
    (csi_logger.log_csi calmEnv toyFloat 1 2 3 4 5 demo_matrix (some 9) none (some 11)
        demo_state).trace
      = demo_state.trace ++ (csi_entries demo_matrix).map (fun e =>
          Event.fwrite demo_state.log_file_.path
            (csi_row_text toyFloat (csi_logger.get_timestamp_string calmEnv demo_state).1 1 2
              3 4 5 (some 9) none (some 11) e))
        ++ [Event.fflush demo_state.log_file_.path] :=
  log_csi_row_count calmEnv toyFloat 1 2 3 4 5 demo_matrix (some 9) none (some 11) 1 2 2 13
    demo_state (Reachable.init _ _ Reachable.initial) (by decide)
    (by simp [has_shape, demo_matrix])

/-! ## Rows as lists of fields -/

/-- The text `log_csi` writes for an entry is its 17 fields separated by
commas, followed by a newline. -/
theorem csi_row_text_eq_fields {F : Type} (ops : FloatOps F) (timestamp : String)
    (slot_idx symbol_idx rnti prb_start nof_prb : Nat) (rsrp_db rsrq_db sinr_db : F)
    (e : Nat × Nat × Nat × Nat × complex F) :
    csi_row_text ops timestamp slot_idx symbol_idx rnti prb_start nof_prb rsrp_db rsrq_db
        sinr_db e
      = ",".intercalate (csi_row_fields ops timestamp slot_idx symbol_idx rnti prb_start
          nof_prb rsrp_db rsrq_db sinr_db e) ++ "\n" := by
  have h3 : (",,," : String) = "," ++ ("," ++ ",") := by decide
  unfold csi_row_text csi_row_fields csi_logger.log_csi_row csi_logger.log_csi_tail
    metric_field is_first
  cases (e.1 == 0 && e.2.1 == 0 && e.2.2.1 == 0 && e.2.2.2.1 == 0) <;>
  cases ops.isnan rsrp_db <;> cases ops.isnan rsrq_db <;> cases ops.isnan sinr_db <;>
  simp [-String.reduceAppend, String.intercalate, String.intercalate.go, String.append_assoc, h3,
    FmtState.scientific6, sci6, String.empty_append, String.append_empty]

/-- The text `log_csi_simple` writes for an entry is its 17 fields separated
by commas, followed by a newline. -/
theorem simple_row_text_eq_fields {F : Type} (ops : FloatOps F) (timestamp : String)
    (slot_idx symbol_idx rnti prb_start nof_prb : Nat) (rsrp_db : F)
    (e : Nat × Nat × complex F) :
    simple_row_text ops timestamp slot_idx symbol_idx rnti prb_start nof_prb rsrp_db e
      = ",".intercalate (simple_row_fields ops timestamp slot_idx symbol_idx rnti prb_start
          nof_prb rsrp_db e) ++ "\n" := by
  have h3 : (",,," : String) = "," ++ ("," ++ ",") := by decide
  have h2 : (",," : String) = "," ++ "," := by decide
  have h0 : ("0," : String) = "0" ++ "," := by decide
  unfold simple_row_text simple_row_fields csi_logger.log_csi_simple_row
    csi_logger.log_csi_simple_tail metric_field is_first_simple
  cases (e.1 == 0 && e.2.1 == 0) <;> cases ops.isnan rsrp_db <;>
  simp [-String.reduceAppend, String.intercalate, String.intercalate.go, String.append_assoc, h3, h2, h0,
    FmtState.scientific6, sci6, String.empty_append, String.append_empty]

/-! ## Where the entry with all indices zero can be -/

theorem mem_tail_flatMap_enum {α β : Type} (l : List α) (g : Nat × α → List β) (e : β)
    (h : e ∈ (l.enum.flatMap g).tail) :
    (∃ a as, l = a :: as ∧ e ∈ (g (0, a)).tail) ∨ (∃ p ∈ l.enum, 1 ≤ p.1 ∧ e ∈ g p) := by
  cases l with
  | nil => simp at h
  | cons a as =>
    rw [List.enum_cons, List.flatMap_cons, List.tail_append] at h
    have hright : e ∈ (List.enumFrom 1 as).flatMap g →
        ∃ p ∈ (a :: as).enum, 1 ≤ p.1 ∧ e ∈ g p := by
      intro hb
      obtain ⟨p, hp, hep⟩ := List.mem_flatMap.mp hb
      refine ⟨p, ?_, ?_, hep⟩
      · rw [List.enum_cons]
        exact List.mem_cons_of_mem _ hp
      · obtain ⟨i, x⟩ := p
        exact (List.mem_enumFrom hp).1
    split at h
    · exact Or.inr (hright (List.mem_of_mem_tail h))
    · rcases List.mem_append.mp h with h1 | h1
      · exact Or.inl ⟨a, as, rfl, h1⟩
      · exact Or.inr (hright h1)

theorem mem_tail_map_enum {α β : Type} (l : List α) (f : Nat × α → β) (e : β)
    (h : e ∈ (l.enum.map f).tail) : ∃ p ∈ l.enum, 1 ≤ p.1 ∧ e = f p := by
  cases l with
  | nil => simp at h
  | cons a as =>
    rw [List.enum_cons, List.map_cons, List.tail_cons] at h
    obtain ⟨p, hp, hep⟩ := List.mem_map.mp h
    refine ⟨p, ?_, ?_, hep.symm⟩
    · rw [List.enum_cons]
      exact List.mem_cons_of_mem _ hp
    · obtain ⟨i, x⟩ := p
      exact (List.mem_enumFrom hp).1

theorem is_first_false_of_pos {F : Type} (e : Nat × Nat × Nat × Nat × complex F)
    (h : 1 ≤ e.1 ∨ 1 ≤ e.2.1 ∨ 1 ≤ e.2.2.1 ∨ 1 ≤ e.2.2.2.1) : is_first e = false := by
  obtain ⟨a, b, c, d, v⟩ := e
  simp only [is_first, Bool.and_eq_false_iff, beq_eq_false_iff_ne, ne_eq]
  simp only at h
  omega

/-- No row after the first one of a call is the row with all four indices
zero. -/
theorem csi_entries_tail_not_first {F : Type}
    (channel_matrix : List (List (List (List (complex F)))))
    (e : Nat × Nat × Nat × Nat × complex F) (h : e ∈ (csi_entries channel_matrix).tail) :
    is_first e = false := by
  unfold csi_entries at h
  rcases mem_tail_flatMap_enum _ _ _ h with ⟨layers, _, _, h1⟩ | ⟨pl, _, hpos, h1⟩
  · rcases mem_tail_flatMap_enum _ _ _ h1 with ⟨prbs, _, _, h2⟩ | ⟨lp, _, hpos, h2⟩
    · rcases mem_tail_flatMap_enum _ _ _ h2 with ⟨res, _, _, h3⟩ | ⟨bp, _, hpos, h3⟩
      · obtain ⟨rv, _, hpos, rfl⟩ := mem_tail_map_enum _ _ _ h3
        exact is_first_false_of_pos _ (Or.inr (Or.inr (Or.inr hpos)))
      · simp only [List.mem_map] at h3
        obtain ⟨rv, _, rfl⟩ := h3
        exact is_first_false_of_pos _ (Or.inr (Or.inr (Or.inl hpos)))
    · simp only [List.mem_flatMap, List.mem_map] at h2
      obtain ⟨bp, _, rv, _, rfl⟩ := h2
      exact is_first_false_of_pos _ (Or.inr (Or.inl hpos))
  · simp only [List.mem_flatMap, List.mem_map] at h1
    obtain ⟨lp, _, bp, _, rv, _, rfl⟩ := h1
    exact is_first_false_of_pos _ (Or.inl hpos)

theorem eq_cons_of_zero_mem_enum {α : Type} {l : List α} {x : α} (h : (0, x) ∈ l.enum) :
    ∃ t, l = x :: t := by
  cases l with
  | nil => simp at h
  | cons a t =>
    have h1 := (List.mem_enum h).2
    simp only [List.getElem_cons_zero] at h1
    exact ⟨t, by rw [h1]⟩

/-- A row with all four indices zero exists only when
`channel_matrix[0][0][0]` has an element. -/
theorem first_prb_nonempty_of_is_first {F : Type}
    (channel_matrix : List (List (List (List (complex F)))))
    (e : Nat × Nat × Nat × Nat × complex F) (h : e ∈ csi_entries channel_matrix)
    (hf : is_first e = true) : first_prb_nonempty channel_matrix = true := by
  simp only [csi_entries, List.mem_flatMap, List.mem_map] at h
  obtain ⟨⟨p, layers⟩, hpl, ⟨l, prbs⟩, hlp, ⟨b, res⟩, hbp, ⟨r, v⟩, hrv, rfl⟩ := h
  simp only [is_first, Bool.and_eq_true, beq_iff_eq] at hf
  obtain ⟨⟨⟨hp, hl⟩, hb⟩, hr⟩ := hf
  simp only at hp hl hb hr hpl hlp hbp hrv
  subst hp hl hb hr
  obtain ⟨t1, rfl⟩ := eq_cons_of_zero_mem_enum hpl
  obtain ⟨t2, rfl⟩ := eq_cons_of_zero_mem_enum hlp
  obtain ⟨t3, rfl⟩ := eq_cons_of_zero_mem_enum hbp
  cases res with
  | nil => simp at hrv
  | cons v0 vs => rfl

/-- When `channel_matrix[0][0][0]` has an element, the first row of the call
is the one with all four indices zero. -/
theorem csi_entries_head_of_first_prb_nonempty {F : Type}
    (channel_matrix : List (List (List (List (complex F)))))
    (h : first_prb_nonempty channel_matrix = true) :
    ∃ v rest, csi_entries channel_matrix = (0, 0, 0, 0, v) :: rest := by
  match channel_matrix, h with
  | (((v :: vs) :: prbs) :: layers) :: ports, _ =>
    exact ⟨v, (csi_entries ((((v :: vs) :: prbs) :: layers) :: ports)).tail,
      by simp [csi_entries, List.enum_cons]⟩

/-! ## Decimal rendering and file names -/

theorem digitChar_value (k : Nat) (h : k < 10) : (Nat.digitChar k).toNat - 48 = k := by
  interval_cases k <;> rfl

theorem digitChar_ne_underscore (k : Nat) (h : k < 10) : Nat.digitChar k ≠ '_' := by
  interval_cases k <;> decide

theorem foldl_toDigitsCore (fuel n : Nat) (ds : List Char) (h : n < fuel) :
    (Nat.toDigitsCore 10 fuel n ds).foldl (fun acc ch => acc * 10 + (ch.toNat - 48)) 0
      = ds.foldl (fun acc ch => acc * 10 + (ch.toNat - 48)) n := by
  induction fuel generalizing n ds with
  | zero => omega
  | succ f ih =>
    unfold Nat.toDigitsCore
    have hd := digitChar_value (n % 10) (Nat.mod_lt _ (by decide))
    by_cases h0 : n / 10 = 0
    · have hn : n % 10 = n := by omega
      rw [hn] at hd
      simp only [h0, if_true, List.foldl_cons, hn, hd]
      simp
    · have hlt : n / 10 < f := by omega
      simp only [h0, if_false]
      rw [ih (n / 10) _ hlt, List.foldl_cons, hd]
      have : n / 10 * 10 + n % 10 = n := by omega
      rw [this]

theorem decimal_value_toString (n : Nat) : decimal_value (toString n).data = n := by
  show decimal_value (Nat.toDigits 10 n) = n
  unfold decimal_value Nat.toDigits
  rw [foldl_toDigitsCore (n + 1) n [] (Nat.lt_succ_self n)]
  rfl

theorem toString_nat_injective (a b : Nat) (h : toString a = toString b) : a = b := by
  rw [← decimal_value_toString a, ← decimal_value_toString b, h]

theorem toDigitsCore_no_underscore (fuel n : Nat) (ds : List Char) (h : '_' ∉ ds) :
    '_' ∉ Nat.toDigitsCore 10 fuel n ds := by
  induction fuel generalizing n ds with
  | zero => simpa [Nat.toDigitsCore] using h
  | succ f ih =>
    unfold Nat.toDigitsCore
    have hd := digitChar_ne_underscore (n % 10) (Nat.mod_lt _ (by decide))
    have h2 : '_' ∉ (Nat.digitChar (n % 10)) :: ds := by
      intro hm
      rcases List.mem_cons.mp hm with h3 | h3
      · exact hd h3.symm
      · exact h h3
    by_cases h0 : n / 10 = 0
    · simpa only [h0, if_true] using h2
    · simp only [h0, if_false]
      exact ih _ _ h2

theorem toString_nat_no_underscore (n : Nat) : '_' ∉ (toString n).data := by
  show '_' ∉ Nat.toDigits 10 n
  exact toDigitsCore_no_underscore _ _ _ (by simp)

theorem append_cons_cancel {α : Type} (c : α) (a a' b b' : List α) (ha : c ∉ a) (ha' : c ∉ a')
    (h : a ++ c :: b = a' ++ c :: b') : a = a' := by
  induction a generalizing a' with
  | nil =>
    cases a' with
    | nil => rfl
    | cons x t =>
      simp only [List.nil_append, List.cons_append, List.cons.injEq] at h
      exact absurd (h.1 ▸ List.mem_cons_self x t) ha'
  | cons y s ih =>
    cases a' with
    | nil =>
      simp only [List.nil_append, List.cons_append, List.cons.injEq] at h
      exact absurd (h.1 ▸ List.mem_cons_self y s) ha
    | cons x t =>
      simp only [List.cons_append, List.cons.injEq] at h
      rw [h.1, ih t (fun hm => ha (List.mem_cons_of_mem _ hm))
        (fun hm => ha' (List.mem_cons_of_mem _ hm)) h.2]

/-- Two file names built with different rotation counters are different
strings, whatever the directories and the clock readings. -/
theorem file_name_ne (d1 d2 : String) (t1 t2 : time_point) (c1 c2 : Nat) (h : c1 ≠ c2) :
    csi_logger.file_name d1 t1 c1 ≠ csi_logger.file_name d2 t2 c2 := by
  intro heq
  have h1 := congrArg String.data heq
  simp only [csi_logger.file_name, String.data_append] at h1
  have h2 := List.append_cancel_right h1
  have h3 := congrArg List.reverse h2
  simp only [List.reverse_append, List.reverse_cons, List.reverse_nil, List.nil_append,
    List.singleton_append] at h3
  have h4 := append_cons_cancel '_' _ _ _ _
    (by simpa using toString_nat_no_underscore c1)
    (by simpa using toString_nat_no_underscore c2) h3
  have h5 : (toString c1).data = (toString c2).data := List.reverse_injective h4
  exact h (toString_nat_injective c1 c2 (String.ext h5))

/-! ## Which row carries the metrics -/

/-- Supporting C2 (see `csi_logger.log_csi` for the declared parameter type):
on the four-level matrix of the body, for the ragged matrix whose first PRB
is empty the call emits one row, and that first row ends with three empty
fields although all three metrics are valid numbers of the stand-in float. -/
theorem log_csi_ragged_first_row_without_metrics :
    toyFloat.isnan (some 9) = false ∧ toyFloat.isnan (some 10) = false ∧
    toyFloat.isnan (some 11) = false ∧
    (csi_logger.log_csi calmEnv toyFloat 1 2 3 4 5 ragged_matrix (some 9) (some 10) (some 11)
        demo_state).trace
      = demo_state.trace ++
        [Event.fwrite "/var/log/csi/csi_20240102_030405_042_0.csv"
          "2024-01-02 03:04:05.042,1,2,3,4,5,5,0,0,0,1.000000e+00,2.000000e+00,1.000000e+00,2.000000e+00,,,\n",
         Event.fflush "/var/log/csi/csi_20240102_030405_042_0.csv"] := by
  decide

/-- Supporting C2 (see `csi_logger.log_csi` for the declared parameter type):
for every four-level channel matrix, ragged ones included, and every
reachable state with a file open, the rows `log_csi` writes are the 17-field
rows of the visited entries; the three trailing fields of a row are the
metrics (each empty when it is NaN) on the row with
`port = layer = prb_idx = re_idx = 0` and three empty fields on every other
row; that row can only be the first row of the call, and it is the first row
when `channel_matrix[0][0][0]` has an element; when it has none, no row of the
call carries the metrics. -/
theorem log_csi_metrics_row {F : Type} (env : Env) (ops : FloatOps F)
    (slot_idx symbol_idx rnti prb_start nof_prb : Nat)
    (channel_matrix : List (List (List (List (complex F)))))
    (rsrp_db rsrq_db sinr_db : F) (s : csi_logger)
    (hs : Reachable env ops s) (ho : s.log_file_.is_open = true) :
    (csi_logger.log_csi env ops slot_idx symbol_idx rnti prb_start nof_prb channel_matrix
        rsrp_db rsrq_db sinr_db s).trace
      = s.trace ++ (csi_entries channel_matrix).map (fun e =>
          Event.fwrite s.log_file_.path
            (",".intercalate (csi_row_fields ops (csi_logger.get_timestamp_string env s).1
              slot_idx symbol_idx rnti prb_start nof_prb rsrp_db rsrq_db sinr_db e) ++ "\n"))
        ++ [Event.fflush s.log_file_.path] ∧
    (∀ e : Nat × Nat × Nat × Nat × complex F,
      (csi_row_fields ops (csi_logger.get_timestamp_string env s).1 slot_idx symbol_idx rnti
          prb_start nof_prb rsrp_db rsrq_db sinr_db e).drop 14
        = if is_first e then
            [metric_field ops true rsrp_db, metric_field ops true rsrq_db,
              metric_field ops true sinr_db]
          else ["", "", ""]) ∧
    (∀ e ∈ (csi_entries channel_matrix).tail, is_first e = false) ∧
    (first_prb_nonempty channel_matrix = true →
      ∃ v rest, csi_entries channel_matrix = (0, 0, 0, 0, v) :: rest) ∧
    (first_prb_nonempty channel_matrix = false →
      ∀ e ∈ csi_entries channel_matrix, is_first e = false) := by
  refine ⟨?_, ?_, csi_entries_tail_not_first channel_matrix,
    csi_entries_head_of_first_prb_nonempty channel_matrix, ?_⟩
  · rw [log_csi_open_eq _ _ _ _ _ _ _ _ _ _ _ s (hs.inv.1 ho) ho]
    simp only [csi_row_text_eq_fields]
  · intro e
    cases h : is_first e <;> simp [csi_row_fields, metric_field, h]
  · intro hne e he
    cases h : is_first e with
    | false => rfl
    | true =>
      rw [first_prb_nonempty_of_is_first channel_matrix e he h] at hne
      exact absurd hne (by decide)

theorem log_csi_metrics_row_witness :
    (csi_logger.log_csi calmEnv toyFloat 1 2 3 4 5 demo_matrix (some 9) none (some 11)
        demo_state).trace
      = demo_state.trace ++ (csi_entries demo_matrix).map (fun e =>
          Event.fwrite demo_state.log_file_.path
            (",".intercalate (csi_row_fields toyFloat
              (csi_logger.get_timestamp_string calmEnv demo_state).1
              1 2 3 4 5 (some 9) none (some 11) e) ++ "\n"))
        ++ [Event.fflush demo_state.log_file_.path] ∧
    (∀ e : Nat × Nat × Nat × Nat × complex (Option Nat),
      (csi_row_fields toyFloat (csi_logger.get_timestamp_string calmEnv demo_state).1 1 2 3
          4 5 (some 9) none (some 11) e).drop 14
        = if is_first e then
            [metric_field toyFloat true (some 9), metric_field toyFloat true none,
              metric_field toyFloat true (some 11)]
          else ["", "", ""]) ∧
    (∀ e ∈ (csi_entries demo_matrix).tail, is_first e = false) ∧
    (first_prb_nonempty demo_matrix = true →
      ∃ v rest, csi_entries demo_matrix = (0, 0, 0, 0, v) :: rest) ∧
    (first_prb_nonempty demo_matrix = false →
      ∀ e ∈ csi_entries demo_matrix, is_first e = false) :=
  log_csi_metrics_row calmEnv toyFloat 1 2 3 4 5 demo_matrix (some 9) none (some 11)
    demo_state (Reachable.init _ _ Reachable.initial) (by decide)

/-! ## NaN metrics -/

theorem simple_entries_length {F : Type} (nof_prb R : Nat)
    (channel_coeffs : List (List (complex F)))
    (h : ∀ res ∈ channel_coeffs, res.length = R) :
    (simple_entries nof_prb channel_coeffs).length
      = min channel_coeffs.length nof_prb * min R 12 := by
  unfold simple_entries
  rw [length_flatMap_const _ _ (min R 12), List.enum_length, List.length_take, Nat.min_comm]
  intro bp hbp
  have hR := h bp.2 (List.mem_of_mem_take (snd_mem_of_mem_enum hbp))
  simp [List.enum_length, List.length_take, hR, Nat.min_comm]

/-- C4: when all inner sequences of `channel_coeffs` have length `R` and the
state is reachable with a file open, `log_csi_simple` appends to the trace
exactly one write to the open file per visited entry, followed by one flush;
there are `min (len channel_coeffs) nof_prb * min R 12` entries (none when
`nof_prb = 0`), and in each row the `rx_port` and `tx_layer` fields (fields 8
and 9 of the 17) are the literal `0`. -/
theorem log_csi_simple_row_count {F : Type} (env : Env) (ops : FloatOps F)
    (slot_idx symbol_idx rnti prb_start nof_prb : Nat)
    (channel_coeffs : List (List (complex F))) (rsrp_db : F) (R : Nat) (s : csi_logger)
    (hs : Reachable env ops s) (ho : s.log_file_.is_open = true)
    (hR : ∀ res ∈ channel_coeffs, res.length = R) :
    (simple_entries nof_prb channel_coeffs).length
      = min channel_coeffs.length nof_prb * min R 12 ∧
    (nof_prb = 0 → simple_entries nof_prb channel_coeffs = []) ∧
    (csi_logger.log_csi_simple env ops slot_idx symbol_idx rnti prb_start nof_prb
        channel_coeffs rsrp_db s).trace
      = s.trace ++ (simple_entries nof_prb channel_coeffs).map (fun e =>
          Event.fwrite s.log_file_.path
            (",".intercalate (simple_row_fields ops (csi_logger.get_timestamp_string env s).1
              slot_idx symbol_idx rnti prb_start nof_prb rsrp_db e) ++ "\n"))
        ++ [Event.fflush s.log_file_.path] ∧
    (∀ e : Nat × Nat × complex F,
      (simple_row_fields ops (csi_logger.get_timestamp_string env s).1 slot_idx symbol_idx
        rnti prb_start nof_prb rsrp_db e)[8]? = some "0" ∧
      (simple_row_fields ops (csi_logger.get_timestamp_string env s).1 slot_idx symbol_idx
        rnti prb_start nof_prb rsrp_db e)[9]? = some "0") := by
  refine ⟨simple_entries_length nof_prb R channel_coeffs hR, ?_, ?_, fun e => ⟨rfl, rfl⟩⟩
  · intro h0
    subst h0
    simp [simple_entries]
  · rw [log_csi_simple_open_eq _ _ _ _ _ _ _ _ _ s (hs.inv.1 ho) ho]
    simp only [simple_row_text_eq_fields]

theorem log_csi_simple_row_count_witness :
    (simple_entries 2 demo_coeffs).length = min demo_coeffs.length 2 * min 13 12 ∧
    (2 = 0 → simple_entries 2 demo_coeffs = []) ∧
    (csi_logger.log_csi_simple calmEnv toyFloat 1 2 3 4 2 demo_coeffs (some 9)
        demo_state).trace
      = demo_state.trace ++ (simple_entries 2 demo_coeffs).map (fun e =>
          Event.fwrite demo_state.log_file_.path
            (",".intercalate (simple_row_fields toyFloat
              (csi_logger.get_timestamp_string calmEnv demo_state).1
              1 2 3 4 2 (some 9) e) ++ "\n"))
        ++ [Event.fflush demo_state.log_file_.path] ∧
    (∀ e : Nat × Nat × complex (Option Nat),
      (simple_row_fields toyFloat (csi_logger.get_timestamp_string calmEnv demo_state).1 1 2
        3 4 2 (some 9) e)[8]? = some "0" ∧
      (simple_row_fields toyFloat (csi_logger.get_timestamp_string calmEnv demo_state).1 1 2
        3 4 2 (some 9) e)[9]? = some "0") :=
  log_csi_simple_row_count calmEnv toyFloat 1 2 3 4 2 demo_coeffs (some 9) 13 demo_state
    (Reachable.init _ _ Reachable.initial) (by decide) (by simp [demo_coeffs])

/-- C5: every row `log_csi_simple` writes is the 17 fields of its entry; the
`rsrq_db` and `sinr_db` fields are empty in every row; the `rsrp_db` field is
non-empty only on the row with `prb_idx = 0` and `re_idx = 0`, and there only
when `rsrp_db` is not NaN, in which case it is the rendered value; every other
row ends with three empty fields. -/
theorem log_csi_simple_trailing_fields {F : Type} (ops : FloatOps F) (timestamp : String)
    (slot_idx symbol_idx rnti prb_start nof_prb : Nat) (rsrp_db : F)
    (e : Nat × Nat × complex F) :
    simple_row_text ops timestamp slot_idx symbol_idx rnti prb_start nof_prb rsrp_db e
      = ",".intercalate (simple_row_fields ops timestamp slot_idx symbol_idx rnti prb_start
          nof_prb rsrp_db e) ++ "\n" ∧
    (simple_row_fields ops timestamp slot_idx symbol_idx rnti prb_start nof_prb rsrp_db e).drop
        14 = [metric_field ops (is_first_simple e) rsrp_db, "", ""] ∧
    (metric_field ops (is_first_simple e) rsrp_db ≠ "" →
      e.1 = 0 ∧ e.2.1 = 0 ∧ ops.isnan rsrp_db = false) ∧
    (e.1 = 0 ∧ e.2.1 = 0 ∧ ops.isnan rsrp_db = false →
      metric_field ops (is_first_simple e) rsrp_db = ops.render sci6 rsrp_db) ∧
    (¬ (e.1 = 0 ∧ e.2.1 = 0) →
      (simple_row_fields ops timestamp slot_idx symbol_idx rnti prb_start nof_prb rsrp_db
        e).drop 14 = ["", "", ""]) := by
  obtain ⟨b, r, v⟩ := e
  refine ⟨simple_row_text_eq_fields _ _ _ _ _ _ _ _ _, rfl, ?_, ?_, ?_⟩
  · intro h
    by_contra hcon
    apply h
    simp only [metric_field, is_first_simple]
    rw [if_neg]
    intro hc
    apply hcon
    have hc2 : (b = 0 ∧ r = 0) ∧ ops.isnan rsrp_db = false := by
      simpa [Bool.and_eq_true] using hc
    exact ⟨hc2.1.1, hc2.1.2, hc2.2⟩
  · rintro ⟨h1, h2, h3⟩
    simp only at h1 h2
    subst h1 h2
    simp [metric_field, is_first_simple, h3]
  · intro h
    have : is_first_simple (b, r, v) = false := by
      simp only [is_first_simple, Bool.and_eq_false_iff, beq_eq_false_iff_ne, ne_eq]
      simp only [not_and_or] at h
      exact h
    simp [simple_row_fields, metric_field, this]

/-! ## Float formatting -/

/-- C6, as stated, fails: on a stream still in its default format the valid
metrics of the first row are written in scientific notation
(`9.000000e+00`), not in the default format (which would give `9`). -/
theorem log_csi_metrics_not_default_format :
    demo_state.log_file_.fmt.floatfield = FloatField.defaultfloat ∧
    toyFloat.render demo_state.log_file_.fmt (some 9) = "9" ∧
    (csi_logger.log_csi calmEnv toyFloat 1 2 3 4 5 [[[[⟨some 1, some 2⟩]]]] (some 9) (some 10)
        (some 11) demo_state).trace
      = demo_state.trace ++
        [Event.fwrite "/var/log/csi/csi_20240102_030405_042_0.csv"
          "2024-01-02 03:04:05.042,1,2,3,4,5,4,0,0,0,1.000000e+00,2.000000e+00,1.000000e+00,2.000000e+00,9.000000e+00,10.000000e+00,11.000000e+00\n",
         Event.fflush "/var/log/csi/csi_20240102_030405_042_0.csv"] := by
  decide

/-- C6 (amended): whatever the format state of the stream before a row, in a
row of `log_csi` or `log_csi_simple` the `csi_real`, `csi_imag`,
`csi_magnitude` and `csi_phase` fields and every non-empty `rsrp_db`,
`rsrq_db` or `sinr_db` field are rendered in the same format state:
scientific notation with precision 6, which is also the state the row leaves
the stream in. -/
theorem row_floats_scientific {F : Type} (ops : FloatOps F) (fmt : FmtState)
    (timestamp : String) (slot_idx symbol_idx rnti prb_start nof_prb : Nat)
    (rsrp_db rsrq_db sinr_db : F) (e : Nat × Nat × Nat × Nat × complex F)
    (e2 : Nat × Nat × complex F) :
    sci6.floatfield = FloatField.scientific ∧ sci6.precision = 6 ∧
    csi_logger.log_csi_row ops fmt timestamp slot_idx symbol_idx rnti prb_start nof_prb
        rsrp_db rsrq_db sinr_db e.1 e.2.1 e.2.2.1 e.2.2.2.1 e.2.2.2.2
      = (",".intercalate (csi_row_fields ops timestamp slot_idx symbol_idx rnti prb_start
          nof_prb rsrp_db rsrq_db sinr_db e) ++ "\n", sci6) ∧
    (csi_row_fields ops timestamp slot_idx symbol_idx rnti prb_start nof_prb rsrp_db rsrq_db
        sinr_db e).drop 10
      = [ops.render sci6 e.2.2.2.2.real, ops.render sci6 e.2.2.2.2.imag,
          ops.render sci6 (ops.abs e.2.2.2.2), ops.render sci6 (ops.arg e.2.2.2.2),
          metric_field ops (is_first e) rsrp_db, metric_field ops (is_first e) rsrq_db,
          metric_field ops (is_first e) sinr_db] ∧
    csi_logger.log_csi_simple_row ops fmt timestamp slot_idx symbol_idx rnti prb_start nof_prb
        rsrp_db e2.1 e2.2.1 e2.2.2
      = (",".intercalate (simple_row_fields ops timestamp slot_idx symbol_idx rnti prb_start
          nof_prb rsrp_db e2) ++ "\n", sci6) ∧
    (simple_row_fields ops timestamp slot_idx symbol_idx rnti prb_start nof_prb rsrp_db
        e2).drop 10
      = [ops.render sci6 e2.2.2.real, ops.render sci6 e2.2.2.imag,
          ops.render sci6 (ops.abs e2.2.2), ops.render sci6 (ops.arg e2.2.2),
          metric_field ops (is_first_simple e2) rsrp_db, "", ""] ∧
    (∀ (carries : Bool) (x : F), metric_field ops carries x ≠ "" →
      metric_field ops carries x = ops.render sci6 x) := by
  refine ⟨rfl, rfl, ?_, rfl, ?_, rfl, ?_⟩
  · rw [← csi_row_text_eq_fields]
    rfl
  · rw [← simple_row_text_eq_fields]
    rfl
  · intro carries x h
    unfold metric_field at h ⊢
    split
    · rfl
    · rename_i hc
      rw [if_neg hc] at h
      exact absurd rfl h

/-! ## `init` and rotation -/

theorem setw_fill0_length (w n : Nat) (h : n < 10 ^ w) (hw : 0 < w) :
    (setw_fill0 w n).length = w := by
  have h1 : (toString n).length ≤ w := Nat.repr_length n w hw h
  unfold setw_fill0
  rw [String.length_append]
  simp only [String.length, List.length_replicate]
  simp only [String.length] at h1
  omega

theorem decimal_value_setw_fill0 (w n : Nat) : decimal_value (setw_fill0 w n).data = n := by
  have hz : ∀ (k : Nat) (l : List Char),
      decimal_value (List.replicate k '0' ++ l) = decimal_value l := by
    intro k l
    induction k with
    | zero => rfl
    | succ k ih =>
      rw [List.replicate_succ, List.cons_append]
      unfold decimal_value at ih ⊢
      rw [List.foldl_cons]
      exact ih
  unfold setw_fill0
  rw [String.data_append, hz]
  exact decimal_value_toString n

/-- Every value of the rotation counter is reached by calling `init` often
enough. -/
theorem counter_reachable (n : Nat) :
    ∃ s, Reachable calmEnv toyFloat s ∧
      s.file_rotation_counter_ = n % 18446744073709551616 := by
  induction n with
  | zero => exact ⟨csi_logger.initial, Reachable.initial, rfl⟩
  | succ n ih =>
    obtain ⟨s, hs, hc⟩ := ih
    refine ⟨csi_logger.init calmEnv "/var/log/csi" s, Reachable.init s _ hs, ?_⟩
    rw [init_ok_eq calmEnv "/var/log/csi" s rfl]
    simp only [hc]
    omega

/-- C8, as stated, fails: a rotation at the largest counter value of a
`uint64_t` (a value the counter reaches after enough rotations) does not
increase the counter by one, it sets it to 0. -/
theorem rotate_file_counter_wraps :
    saturated_state.file_rotation_counter_ = 18446744073709551615 ∧
    (csi_logger.rotate_file calmEnv saturated_state).file_rotation_counter_ = 0 ∧
    (csi_logger.init calmEnv "/var/log/csi" saturated_state).file_rotation_counter_ = 0 ∧
    (∃ s, Reachable calmEnv toyFloat s ∧
      s.file_rotation_counter_ = saturated_state.file_rotation_counter_) :=
  ⟨by decide, by decide, by decide, counter_reachable 18446744073709551615⟩

/-- C8 (amended): every rotation, whether or not the file can be opened, sets
the rotation counter to `(counter + 1) mod 2^64`, which is `counter + 1`
below the largest `uint64_t` value; the paths computed by two rotations whose
counter values differ are different strings, whatever the directories and
the clock readings; and an `init` on a logger with an open file closes that
file before it opens the new one (when the directory cannot be created it
performs no rotation and opens nothing). -/
theorem rotation_counter_and_paths (env env2 : Env) (s t : csi_logger) (log_dir : String) :
    (csi_logger.rotate_file env s).file_rotation_counter_
      = (s.file_rotation_counter_ + 1) % 18446744073709551616 ∧
    (s.file_rotation_counter_ + 1 < 18446744073709551616 →
      (csi_logger.rotate_file env s).file_rotation_counter_ = s.file_rotation_counter_ + 1) ∧
    (s.file_rotation_counter_ ≠ t.file_rotation_counter_ →
      (csi_logger.rotate_file env s).current_file_
        ≠ (csi_logger.rotate_file env2 t).current_file_) ∧
    (s.log_file_.is_open = true → env.create_directories s.tick log_dir = none →
      ∃ ok rest, (csi_logger.init env log_dir s).trace
        = s.trace ++ [Event.create_directories log_dir true, Event.fclose s.log_file_.path,
            Event.fopen (csi_logger.init env log_dir s).current_file_ ok] ++ rest) ∧
    (∀ what, env.create_directories s.tick log_dir = some what →
      (csi_logger.init env log_dir s).file_rotation_counter_ = s.file_rotation_counter_ ∧
      (csi_logger.init env log_dir s).trace
        = s.trace ++ [Event.create_directories log_dir false,
            Event.cerr ("Error creating CSI log directory: " ++ what ++ "\n")]) := by
  refine ⟨?_, ?_, ?_, ?_, ?_⟩
  · rw [rotate_file_eq]
  · intro h
    rw [rotate_file_eq]
    exact Nat.mod_eq_of_lt h
  · intro h
    rw [rotate_file_eq, rotate_file_eq]
    exact file_name_ne _ _ _ _ _ _ h
  · intro ho hdir
    rw [init_ok_eq env log_dir s hdir]
    exact ⟨env.open_ok (s.tick + 2)
        (csi_logger.file_name log_dir (env.now (s.tick + 1)) s.file_rotation_counter_),
      (open_events
        (csi_logger.file_name log_dir (env.now (s.tick + 1)) s.file_rotation_counter_)
        (env.open_ok (s.tick + 2)
          (csi_logger.file_name log_dir (env.now (s.tick + 1)) s.file_rotation_counter_))).tail
        ++ [Event.cout ("CSI Logger initialized. Logging to: "
          ++ csi_logger.file_name log_dir (env.now (s.tick + 1)) s.file_rotation_counter_
          ++ "\n")],
      by simp [close_events, ho, open_events]⟩
  · intro what hdir
    rw [init_fail_eq env log_dir s what hdir]
    exact ⟨rfl, rfl⟩

/-! ## `close` -/

/-- C9: after `close` no file is open and `initialized_` is false, the
directory, the current file path and the rotation counter are unchanged, the
only event is the closing of the file that was open, and a second `close`
changes nothing at all. -/
theorem close_idempotent (s : csi_logger) :
    (csi_logger.close s).log_file_.is_open = false ∧
    (csi_logger.close s).initialized_ = false ∧
    (csi_logger.close s).log_dir_ = s.log_dir_ ∧
    (csi_logger.close s).current_file_ = s.current_file_ ∧
    (csi_logger.close s).file_rotation_counter_ = s.file_rotation_counter_ ∧
    (csi_logger.close s).trace
      = s.trace ++ (if s.log_file_.is_open then [Event.fclose s.log_file_.path] else []) ∧
    csi_logger.close (csi_logger.close s) = csi_logger.close s := by
  refine ⟨?_, ?_, ?_, ?_, ?_, ?_, ?_⟩
  · rw [close_eq]
  · rw [close_eq]
  · rw [close_eq]
  · rw [close_eq]
  · rw [close_eq]
  · rw [close_eq]
    rfl
  · rw [close_eq (csi_logger.close s), close_eq s]
    simp [close_events]

/-! ## A log call on a logger that is not initialized -/

/-- A `log_csi` call on a logger that is not initialized and has no file
open, when the default directory can be created and the new file opened:
one rotation in the default directory, the header, then the rows. -/
theorem log_csi_reinit {F : Type} (env : Env) (ops : FloatOps F)
    (slot_idx symbol_idx rnti prb_start nof_prb : Nat)
    (channel_matrix : List (List (List (List (complex F)))))
    (rsrp_db rsrq_db sinr_db : F) (s : csi_logger) (p : String)
    (hi : s.initialized_ = false) (hc : s.log_file_.is_open = false)
    (hp : p = csi_logger.file_name default_log_dir (env.now (s.tick + 1))
      s.file_rotation_counter_)
    (hdir : env.create_directories s.tick default_log_dir = none)
    (hopen : env.open_ok (s.tick + 2) p = true) :
    (csi_logger.log_csi env ops slot_idx symbol_idx rnti prb_start nof_prb channel_matrix
        rsrp_db rsrq_db sinr_db s).log_dir_ = "/tmp/csi_logs" ∧
    (csi_logger.log_csi env ops slot_idx symbol_idx rnti prb_start nof_prb channel_matrix
        rsrp_db rsrq_db sinr_db s).file_rotation_counter_
      = (s.file_rotation_counter_ + 1) % 18446744073709551616 ∧
    (csi_logger.log_csi env ops slot_idx symbol_idx rnti prb_start nof_prb channel_matrix
        rsrp_db rsrq_db sinr_db s).current_file_ = p ∧
    (csi_logger.log_csi env ops slot_idx symbol_idx rnti prb_start nof_prb channel_matrix
        rsrp_db rsrq_db sinr_db s).log_file_.is_open = true ∧
    (csi_logger.log_csi env ops slot_idx symbol_idx rnti prb_start nof_prb channel_matrix
        rsrp_db rsrq_db sinr_db s).log_file_.path = p ∧
    (csi_logger.log_csi env ops slot_idx symbol_idx rnti prb_start nof_prb channel_matrix
        rsrp_db rsrq_db sinr_db s).initialized_ = true ∧
    (csi_logger.log_csi env ops slot_idx symbol_idx rnti prb_start nof_prb channel_matrix
        rsrp_db rsrq_db sinr_db s).trace
      = s.trace ++
        [Event.create_directories "/tmp/csi_logs" true, Event.fopen p true,
          Event.fwrite p csv_header, Event.fflush p,
          Event.cout ("CSI Logger initialized. Logging to: " ++ p ++ "\n")]
        ++ (csi_entries channel_matrix).map (fun e => Event.fwrite p
          (csi_row_text ops
            (csi_logger.get_timestamp_string env (csi_logger.init env default_log_dir s)).1
            slot_idx symbol_idx rnti prb_start nof_prb rsrp_db rsrq_db sinr_db e))
        ++ [Event.fflush p] := by
  subst hp
  have hR := init_ok_eq env default_log_dir s hdir
  have hRi : (csi_logger.init env default_log_dir s).initialized_ = true := by rw [hR]
  have hRo : (csi_logger.init env default_log_dir s).log_file_.is_open = true := by
    rw [hR]
    exact hopen
  rw [log_csi_uninit_eq _ _ _ _ _ _ _ _ _ _ _ s hi (fun _ => hRi), if_pos hRo,
    log_csi_open_eq _ _ _ _ _ _ _ _ _ _ _ _ hRi hRo]
  have hRt : (csi_logger.init env default_log_dir s).trace = s.trace ++
      [Event.create_directories "/tmp/csi_logs" true,
        Event.fopen (csi_logger.file_name default_log_dir (env.now (s.tick + 1))
          s.file_rotation_counter_) true,
        Event.fwrite (csi_logger.file_name default_log_dir (env.now (s.tick + 1))
          s.file_rotation_counter_) csv_header,
        Event.fflush (csi_logger.file_name default_log_dir (env.now (s.tick + 1))
          s.file_rotation_counter_),
        Event.cout ("CSI Logger initialized. Logging to: "
          ++ csi_logger.file_name default_log_dir (env.now (s.tick + 1))
            s.file_rotation_counter_ ++ "\n")] := by
    rw [hR]
    simp only [default_log_dir] at hopen ⊢
    simp [close_events, hc, open_events, hopen]
  have hRp : (csi_logger.init env default_log_dir s).log_file_.path
      = csi_logger.file_name default_log_dir (env.now (s.tick + 1))
          s.file_rotation_counter_ := by rw [hR]
  refine ⟨?_, ?_, ?_, ?_, ?_, ?_, ?_⟩
  · show (csi_logger.init env default_log_dir s).log_dir_ = "/tmp/csi_logs"
    rw [hR]
    rfl
  · show (csi_logger.init env default_log_dir s).file_rotation_counter_ = _
    rw [hR]
  · show (csi_logger.init env default_log_dir s).current_file_ = _
    rw [hR]
  · exact hRo
  · exact hRp
  · exact hRi
  · show (csi_logger.init env default_log_dir s).trace ++ _ ++ _ = _
    rw [hRt, hRp]

/-- The same for `log_csi_simple`. -/
theorem log_csi_simple_reinit {F : Type} (env : Env) (ops : FloatOps F)
    (slot_idx symbol_idx rnti prb_start nof_prb : Nat)
    (channel_coeffs : List (List (complex F))) (rsrp_db : F) (s : csi_logger) (p : String)
    (hi : s.initialized_ = false) (hc : s.log_file_.is_open = false)
    (hp : p = csi_logger.file_name default_log_dir (env.now (s.tick + 1))
      s.file_rotation_counter_)
    (hdir : env.create_directories s.tick default_log_dir = none)
    (hopen : env.open_ok (s.tick + 2) p = true) :
    (csi_logger.log_csi_simple env ops slot_idx symbol_idx rnti prb_start nof_prb
        channel_coeffs rsrp_db s).log_dir_ = "/tmp/csi_logs" ∧
    (csi_logger.log_csi_simple env ops slot_idx symbol_idx rnti prb_start nof_prb
        channel_coeffs rsrp_db s).file_rotation_counter_
      = (s.file_rotation_counter_ + 1) % 18446744073709551616 ∧
    (csi_logger.log_csi_simple env ops slot_idx symbol_idx rnti prb_start nof_prb
        channel_coeffs rsrp_db s).current_file_ = p ∧
    (csi_logger.log_csi_simple env ops slot_idx symbol_idx rnti prb_start nof_prb
        channel_coeffs rsrp_db s).log_file_.is_open = true ∧
    (csi_logger.log_csi_simple env ops slot_idx symbol_idx rnti prb_start nof_prb
        channel_coeffs rsrp_db s).log_file_.path = p ∧
    (csi_logger.log_csi_simple env ops slot_idx symbol_idx rnti prb_start nof_prb
        channel_coeffs rsrp_db s).initialized_ = true ∧
    (csi_logger.log_csi_simple env ops slot_idx symbol_idx rnti prb_start nof_prb
        channel_coeffs rsrp_db s).trace
      = s.trace ++
        [Event.create_directories "/tmp/csi_logs" true, Event.fopen p true,
          Event.fwrite p csv_header, Event.fflush p,
          Event.cout ("CSI Logger initialized. Logging to: " ++ p ++ "\n")]
        ++ (simple_entries nof_prb channel_coeffs).map (fun e => Event.fwrite p
          (simple_row_text ops
            (csi_logger.get_timestamp_string env (csi_logger.init env default_log_dir s)).1
            slot_idx symbol_idx rnti prb_start nof_prb rsrp_db e))
        ++ [Event.fflush p] := by
  subst hp
  have hR := init_ok_eq env default_log_dir s hdir
  have hRi : (csi_logger.init env default_log_dir s).initialized_ = true := by rw [hR]
  have hRo : (csi_logger.init env default_log_dir s).log_file_.is_open = true := by
    rw [hR]
    exact hopen
  rw [log_csi_simple_uninit_eq _ _ _ _ _ _ _ _ _ s hi (fun _ => hRi), if_pos hRo,
    log_csi_simple_open_eq _ _ _ _ _ _ _ _ _ _ hRi hRo]
  have hRt : (csi_logger.init env default_log_dir s).trace = s.trace ++
      [Event.create_directories "/tmp/csi_logs" true,
        Event.fopen (csi_logger.file_name default_log_dir (env.now (s.tick + 1))
          s.file_rotation_counter_) true,
        Event.fwrite (csi_logger.file_name default_log_dir (env.now (s.tick + 1))
          s.file_rotation_counter_) csv_header,
        Event.fflush (csi_logger.file_name default_log_dir (env.now (s.tick + 1))
          s.file_rotation_counter_),
        Event.cout ("CSI Logger initialized. Logging to: "
          ++ csi_logger.file_name default_log_dir (env.now (s.tick + 1))
            s.file_rotation_counter_ ++ "\n")] := by
    rw [hR]
    simp only [default_log_dir] at hopen ⊢
    simp [close_events, hc, open_events, hopen]
  have hRp : (csi_logger.init env default_log_dir s).log_file_.path
      = csi_logger.file_name default_log_dir (env.now (s.tick + 1))
          s.file_rotation_counter_ := by rw [hR]
  refine ⟨?_, ?_, ?_, ?_, ?_, ?_, ?_⟩
  · show (csi_logger.init env default_log_dir s).log_dir_ = "/tmp/csi_logs"
    rw [hR]
    rfl
  · show (csi_logger.init env default_log_dir s).file_rotation_counter_ = _
    rw [hR]
  · show (csi_logger.init env default_log_dir s).current_file_ = _
    rw [hR]
  · exact hRo
  · exact hRp
  · exact hRi
  · show (csi_logger.init env default_log_dir s).trace ++ _ ++ _ = _
    rw [hRt, hRp]

/-! ## `close` followed by a log call -/

/-- C10, as stated, fails: after `init` and `close`, a log call whose default
directory cannot be created performs no rotation; the rotation counter keeps
its value, no file is opened and nothing is written. -/
theorem log_after_close_without_rotation :
    closed_state.file_rotation_counter_ = 1 ∧
    (csi_logger.log_csi stormEnv toyFloat 1 2 3 4 5 demo_matrix (some 9) none (some 11)
        closed_state).file_rotation_counter_ = 1 ∧
    (csi_logger.log_csi stormEnv toyFloat 1 2 3 4 5 demo_matrix (some 9) none (some 11)
        closed_state).current_file_ = closed_state.current_file_ ∧
    (csi_logger.log_csi stormEnv toyFloat 1 2 3 4 5 demo_matrix (some 9) none (some 11)
        closed_state).trace
      = closed_state.trace ++ [Event.create_directories "/tmp/csi_logs" false,
          Event.cerr "Error creating CSI log directory: Permission denied\n"] ∧
    (csi_logger.log_csi_simple stormEnv toyFloat 1 2 3 4 5 demo_coeffs (some 9)
        closed_state).file_rotation_counter_ = 1 ∧
    (csi_logger.log_csi_simple stormEnv toyFloat 1 2 3 4 5 demo_coeffs (some 9)
        closed_state).trace
      = closed_state.trace ++ [Event.create_directories "/tmp/csi_logs" false,
          Event.cerr "Error creating CSI log directory: Permission denied\n"] := by
  decide

/-- C10 (amended): after `init d` (whose directory could be created) followed
by `close`, a `log_csi` or `log_csi_simple` call for which the default
directory `/tmp/csi_logs` can be created and the new file opened performs one
rotation in `/tmp/csi_logs` (not in `d`): the rotation counter becomes
`(counter + 1) mod 2^64`, the new file path differs from the path of the
closed file, and the call's events are the creation of the directory, the
opening of the new file, the header written and flushed, the message on
`std::cout`, then the call's rows and a flush. -/
theorem log_after_close_reinitializes {F : Type} (env : Env) (ops : FloatOps F)
    (log_dir : String) (slot_idx symbol_idx rnti prb_start nof_prb : Nat)
    (channel_matrix : List (List (List (List (complex F)))))
    (channel_coeffs : List (List (complex F)))
    (rsrp_db rsrq_db sinr_db : F) (s0 s1 : csi_logger) (p : String)
    (hs1 : s1 = csi_logger.close (csi_logger.init env log_dir s0))
    (hp : p = csi_logger.file_name default_log_dir (env.now (s1.tick + 1))
      s1.file_rotation_counter_)
    (hd : env.create_directories s0.tick log_dir = none)
    (hdir : env.create_directories s1.tick default_log_dir = none)
    (hopen : env.open_ok (s1.tick + 2) p = true) :
    p ≠ s1.current_file_ ∧
    (csi_logger.log_csi env ops slot_idx symbol_idx rnti prb_start nof_prb channel_matrix
        rsrp_db rsrq_db sinr_db s1).log_dir_ = "/tmp/csi_logs" ∧
    (csi_logger.log_csi env ops slot_idx symbol_idx rnti prb_start nof_prb channel_matrix
        rsrp_db rsrq_db sinr_db s1).file_rotation_counter_
      = (s1.file_rotation_counter_ + 1) % 18446744073709551616 ∧
    (csi_logger.log_csi env ops slot_idx symbol_idx rnti prb_start nof_prb channel_matrix
        rsrp_db rsrq_db sinr_db s1).current_file_ = p ∧
    (csi_logger.log_csi env ops slot_idx symbol_idx rnti prb_start nof_prb channel_matrix
        rsrp_db rsrq_db sinr_db s1).trace
      = s1.trace ++
        [Event.create_directories "/tmp/csi_logs" true, Event.fopen p true,
          Event.fwrite p csv_header, Event.fflush p,
          Event.cout ("CSI Logger initialized. Logging to: " ++ p ++ "\n")]
        ++ (csi_entries channel_matrix).map (fun e => Event.fwrite p
          (csi_row_text ops
            (csi_logger.get_timestamp_string env (csi_logger.init env default_log_dir s1)).1
            slot_idx symbol_idx rnti prb_start nof_prb rsrp_db rsrq_db sinr_db e))
        ++ [Event.fflush p] ∧
    (csi_logger.log_csi_simple env ops slot_idx symbol_idx rnti prb_start nof_prb channel_coeffs
        rsrp_db s1).log_dir_ = "/tmp/csi_logs" ∧
    (csi_logger.log_csi_simple env ops slot_idx symbol_idx rnti prb_start nof_prb channel_coeffs
        rsrp_db s1).file_rotation_counter_
      = (s1.file_rotation_counter_ + 1) % 18446744073709551616 ∧
    (csi_logger.log_csi_simple env ops slot_idx symbol_idx rnti prb_start nof_prb channel_coeffs
        rsrp_db s1).current_file_ = p ∧
    (csi_logger.log_csi_simple env ops slot_idx symbol_idx rnti prb_start nof_prb channel_coeffs
        rsrp_db s1).trace
      = s1.trace ++
        [Event.create_directories "/tmp/csi_logs" true, Event.fopen p true,
          Event.fwrite p csv_header, Event.fflush p,
          Event.cout ("CSI Logger initialized. Logging to: " ++ p ++ "\n")]
        ++ (simple_entries nof_prb channel_coeffs).map (fun e => Event.fwrite p
          (simple_row_text ops
            (csi_logger.get_timestamp_string env (csi_logger.init env default_log_dir s1)).1
            slot_idx symbol_idx rnti prb_start nof_prb rsrp_db e))
        ++ [Event.fflush p] := by
  have hi : s1.initialized_ = false := by rw [hs1, close_eq]
  have hc : s1.log_file_.is_open = false := by rw [hs1, close_eq]
  have hcur : s1.current_file_
      = csi_logger.file_name log_dir (env.now (s0.tick + 1)) s0.file_rotation_counter_ := by
    rw [hs1, close_eq, init_ok_eq env log_dir s0 hd]
  have hcnt : s1.file_rotation_counter_
      = (s0.file_rotation_counter_ + 1) % 18446744073709551616 := by
    rw [hs1, close_eq, init_ok_eq env log_dir s0 hd]
  have hne : p ≠ s1.current_file_ := by
    rw [hp, hcur, hcnt]
    apply file_name_ne
    omega
  obtain ⟨a1, a2, a3, _, _, _, a7⟩ := log_csi_reinit env ops slot_idx symbol_idx rnti
    prb_start nof_prb channel_matrix rsrp_db rsrq_db sinr_db s1 p hi hc hp hdir hopen
  obtain ⟨b1, b2, b3, _, _, _, b7⟩ := log_csi_simple_reinit env ops slot_idx symbol_idx rnti
    prb_start nof_prb channel_coeffs rsrp_db s1 p hi hc hp hdir hopen
  exact ⟨hne, a1, a2, a3, a7, b1, b2, b3, b7⟩

theorem log_after_close_reinitializes_witness :
    "/tmp/csi_logs/csi_20240102_030405_042_1.csv" ≠ (csi_logger.close (csi_logger.init calmEnv "/srv/csi" csi_logger.initial)).current_file_ ∧
    (csi_logger.log_csi calmEnv toyFloat 1 2 3 4 5 demo_matrix
        (some 9) none (some 11) (csi_logger.close (csi_logger.init calmEnv "/srv/csi" csi_logger.initial))).log_dir_ = "/tmp/csi_logs" ∧
    (csi_logger.log_csi calmEnv toyFloat 1 2 3 4 5 demo_matrix
        (some 9) none (some 11) (csi_logger.close (csi_logger.init calmEnv "/srv/csi" csi_logger.initial))).file_rotation_counter_
      = ((csi_logger.close (csi_logger.init calmEnv "/srv/csi" csi_logger.initial)).file_rotation_counter_ + 1) % 18446744073709551616 ∧
    (csi_logger.log_csi calmEnv toyFloat 1 2 3 4 5 demo_matrix
        (some 9) none (some 11) (csi_logger.close (csi_logger.init calmEnv "/srv/csi" csi_logger.initial))).current_file_ = "/tmp/csi_logs/csi_20240102_030405_042_1.csv" ∧
    (csi_logger.log_csi calmEnv toyFloat 1 2 3 4 5 demo_matrix
        (some 9) none (some 11) (csi_logger.close (csi_logger.init calmEnv "/srv/csi" csi_logger.initial))).trace
      = (csi_logger.close (csi_logger.init calmEnv "/srv/csi" csi_logger.initial)).trace ++
        [Event.create_directories "/tmp/csi_logs" true, Event.fopen "/tmp/csi_logs/csi_20240102_030405_042_1.csv" true,
          Event.fwrite "/tmp/csi_logs/csi_20240102_030405_042_1.csv" csv_header, Event.fflush "/tmp/csi_logs/csi_20240102_030405_042_1.csv",
          Event.cout ("CSI Logger initialized. Logging to: " ++ "/tmp/csi_logs/csi_20240102_030405_042_1.csv" ++ "\n")]
        ++ (csi_entries demo_matrix).map (fun e => Event.fwrite "/tmp/csi_logs/csi_20240102_030405_042_1.csv"
          (csi_row_text toyFloat
            (csi_logger.get_timestamp_string calmEnv (csi_logger.init calmEnv default_log_dir (csi_logger.close (csi_logger.init calmEnv "/srv/csi" csi_logger.initial)))).1
            1 2 3 4 5 (some 9) none (some 11) e))
        ++ [Event.fflush "/tmp/csi_logs/csi_20240102_030405_042_1.csv"] ∧
    (csi_logger.log_csi_simple calmEnv toyFloat 1 2 3 4 5 demo_coeffs
        (some 9) (csi_logger.close (csi_logger.init calmEnv "/srv/csi" csi_logger.initial))).log_dir_ = "/tmp/csi_logs" ∧
    (csi_logger.log_csi_simple calmEnv toyFloat 1 2 3 4 5 demo_coeffs
        (some 9) (csi_logger.close (csi_logger.init calmEnv "/srv/csi" csi_logger.initial))).file_rotation_counter_
      = ((csi_logger.close (csi_logger.init calmEnv "/srv/csi" csi_logger.initial)).file_rotation_counter_ + 1) % 18446744073709551616 ∧
    (csi_logger.log_csi_simple calmEnv toyFloat 1 2 3 4 5 demo_coeffs
        (some 9) (csi_logger.close (csi_logger.init calmEnv "/srv/csi" csi_logger.initial))).current_file_ = "/tmp/csi_logs/csi_20240102_030405_042_1.csv" ∧
    (csi_logger.log_csi_simple calmEnv toyFloat 1 2 3 4 5 demo_coeffs
        (some 9) (csi_logger.close (csi_logger.init calmEnv "/srv/csi" csi_logger.initial))).trace
      = (csi_logger.close (csi_logger.init calmEnv "/srv/csi" csi_logger.initial)).trace ++
        [Event.create_directories "/tmp/csi_logs" true, Event.fopen "/tmp/csi_logs/csi_20240102_030405_042_1.csv" true,
          Event.fwrite "/tmp/csi_logs/csi_20240102_030405_042_1.csv" csv_header, Event.fflush "/tmp/csi_logs/csi_20240102_030405_042_1.csv",
          Event.cout ("CSI Logger initialized. Logging to: " ++ "/tmp/csi_logs/csi_20240102_030405_042_1.csv" ++ "\n")]
        ++ (simple_entries 5 demo_coeffs).map (fun e => Event.fwrite "/tmp/csi_logs/csi_20240102_030405_042_1.csv"
          (simple_row_text toyFloat
            (csi_logger.get_timestamp_string calmEnv (csi_logger.init calmEnv default_log_dir (csi_logger.close (csi_logger.init calmEnv "/srv/csi" csi_logger.initial)))).1
            1 2 3 4 5 (some 9) e))
        ++ [Event.fflush "/tmp/csi_logs/csi_20240102_030405_042_1.csv"] :=
  log_after_close_reinitializes calmEnv toyFloat "/srv/csi" 1 2 3 4 5 demo_matrix demo_coeffs
    (some 9) none (some 11) csi_logger.initial
    (csi_logger.close (csi_logger.init calmEnv "/srv/csi" csi_logger.initial))
    "/tmp/csi_logs/csi_20240102_030405_042_1.csv" rfl (by decide) (by decide) (by decide) (by decide)

/-! ## `init` failures -/

/-- C12, as stated, fails: an `init` whose directory cannot be created, on a
logger that is initialized with a file open, leaves `initialized_` true and
the file open. -/
theorem init_failure_keeps_initialized :
    demo_state.initialized_ = true ∧ demo_state.log_file_.is_open = true ∧
    stormEnv.create_directories demo_state.tick "/tmp/csi_logs" = some "Permission denied" ∧
    (csi_logger.init stormEnv "/tmp/csi_logs" demo_state).initialized_ = true ∧
    (csi_logger.init stormEnv "/tmp/csi_logs" demo_state).log_file_.is_open = true := by
  decide

/-- C12 (amended): for every prior logger state, an `init` call whose
directory creation fails leaves the `initialized_` flag as it was before the
call, so it is false afterwards exactly when the logger was not initialized
before; the call changes only `log_dir_`, reports the error on `std::cerr`
and performs no rotation. -/
theorem init_failure_preserves_initialized (env : Env) (log_dir what : String)
    (s : csi_logger) (hdir : env.create_directories s.tick log_dir = some what) :
    (csi_logger.init env log_dir s).initialized_ = s.initialized_ ∧
    (s.initialized_ = false → (csi_logger.init env log_dir s).initialized_ = false) ∧
    (csi_logger.init env log_dir s).log_file_ = s.log_file_ ∧
    (csi_logger.init env log_dir s).log_dir_ = log_dir ∧
    (csi_logger.init env log_dir s).current_file_ = s.current_file_ ∧
    (csi_logger.init env log_dir s).file_rotation_counter_ = s.file_rotation_counter_ ∧
    (csi_logger.init env log_dir s).trace
      = s.trace ++ [Event.create_directories log_dir false,
          Event.cerr ("Error creating CSI log directory: " ++ what ++ "\n")] := by
  rw [init_fail_eq env log_dir s what hdir]
  exact ⟨rfl, fun h => h, rfl, rfl, rfl, rfl, rfl⟩

theorem init_failure_preserves_initialized_witness :
    (csi_logger.init stormEnv "/tmp/csi_logs" csi_logger.initial).initialized_
      = csi_logger.initial.initialized_ ∧
    (csi_logger.initial.initialized_ = false →
      (csi_logger.init stormEnv "/tmp/csi_logs" csi_logger.initial).initialized_ = false) ∧
    (csi_logger.init stormEnv "/tmp/csi_logs" csi_logger.initial).log_file_
      = csi_logger.initial.log_file_ ∧
    (csi_logger.init stormEnv "/tmp/csi_logs" csi_logger.initial).log_dir_ = "/tmp/csi_logs" ∧
    (csi_logger.init stormEnv "/tmp/csi_logs" csi_logger.initial).current_file_
      = csi_logger.initial.current_file_ ∧
    (csi_logger.init stormEnv "/tmp/csi_logs" csi_logger.initial).file_rotation_counter_
      = csi_logger.initial.file_rotation_counter_ ∧
    (csi_logger.init stormEnv "/tmp/csi_logs" csi_logger.initial).trace
      = csi_logger.initial.trace ++ [Event.create_directories "/tmp/csi_logs" false,
          Event.cerr ("Error creating CSI log directory: " ++ "Permission denied" ++ "\n")] :=
  init_failure_preserves_initialized stormEnv "/tmp/csi_logs" "Permission denied"
    csi_logger.initial (by decide)

/-- A log call on an initialized logger without an open file changes
nothing. -/
theorem do_call_closed_eq {F : Type} (env : Env) (ops : FloatOps F) (c : log_call F)
    (s : csi_logger) (hi : s.initialized_ = true) (hc : s.log_file_.is_open = false) :
    do_call env ops c s = s := by
  cases c with
  | csi a b c d e cm x y z => exact log_csi_closed_eq env ops a b c d e cm x y z s hi hc
  | simple a b c d e cc x => exact log_csi_simple_closed_eq env ops a b c d e cc x s hi hc

theorem run_calls_closed_eq {F : Type} (env : Env) (ops : FloatOps F)
    (calls : List (log_call F)) (s : csi_logger) (hi : s.initialized_ = true)
    (hc : s.log_file_.is_open = false) : run_calls env ops calls s = s := by
  induction calls with
  | nil => rfl
  | cons c cs ih =>
    unfold run_calls at ih ⊢
    rw [List.foldl_cons, do_call_closed_eq env ops c s hi hc]
    exact ih

/-- C13: after an `init` whose directory creation succeeds and whose file
open fails, no file is open (and the failure was reported once, by that
`init`); every later `log_csi` or `log_csi_simple` call, and every sequence of
such calls, returns the logger state unchanged: no event is added to the
trace (no row, no rotation, no error message) and no static member
changes. -/
theorem log_calls_after_open_failure {F : Type} (env : Env) (ops : FloatOps F)
    (log_dir : String) (s : csi_logger) (calls : List (log_call F))
    (slot_idx symbol_idx rnti prb_start nof_prb : Nat)
    (channel_matrix : List (List (List (List (complex F)))))
    (channel_coeffs : List (List (complex F))) (rsrp_db rsrq_db sinr_db : F)
    (hdir : env.create_directories s.tick log_dir = none)
    (hopen : env.open_ok (s.tick + 2)
      (csi_logger.file_name log_dir (env.now (s.tick + 1)) s.file_rotation_counter_) = false) :
    (csi_logger.init env log_dir s).log_file_.is_open = false ∧
    open_events (csi_logger.init env log_dir s).current_file_ false
      = [Event.fopen (csi_logger.init env log_dir s).current_file_ false,
          Event.cerr ("Error opening CSI log file: "
            ++ (csi_logger.init env log_dir s).current_file_ ++ "\n")] ∧
    (csi_logger.init env log_dir s).trace
      = s.trace ++ [Event.create_directories log_dir true] ++ close_events s.log_file_
        ++ open_events (csi_logger.init env log_dir s).current_file_ false
        ++ [Event.cout ("CSI Logger initialized. Logging to: "
          ++ (csi_logger.init env log_dir s).current_file_ ++ "\n")] ∧
    csi_logger.log_csi env ops slot_idx symbol_idx rnti prb_start nof_prb channel_matrix
        rsrp_db rsrq_db sinr_db (csi_logger.init env log_dir s)
      = csi_logger.init env log_dir s ∧
    csi_logger.log_csi_simple env ops slot_idx symbol_idx rnti prb_start nof_prb
        channel_coeffs rsrp_db (csi_logger.init env log_dir s)
      = csi_logger.init env log_dir s ∧
    run_calls env ops calls (csi_logger.init env log_dir s) = csi_logger.init env log_dir s := by
  have hi : (csi_logger.init env log_dir s).initialized_ = true := by
    rw [init_ok_eq env log_dir s hdir]
  have hc : (csi_logger.init env log_dir s).log_file_.is_open = false := by
    rw [init_ok_eq env log_dir s hdir]
    exact hopen
  refine ⟨hc, rfl, ?_, log_csi_closed_eq _ _ _ _ _ _ _ _ _ _ _ _ hi hc,
    log_csi_simple_closed_eq _ _ _ _ _ _ _ _ _ _ hi hc, run_calls_closed_eq _ _ _ _ hi hc⟩
  rw [init_ok_eq env log_dir s hdir]
  simp only [hopen]

theorem log_calls_after_open_failure_witness :
    (csi_logger.init sealedEnv "/var/log/csi" demo_state).log_file_.is_open = false ∧
    open_events (csi_logger.init sealedEnv "/var/log/csi" demo_state).current_file_ false
      = [Event.fopen (csi_logger.init sealedEnv "/var/log/csi" demo_state).current_file_ false,
          Event.cerr ("Error opening CSI log file: "
            ++ (csi_logger.init sealedEnv "/var/log/csi" demo_state).current_file_ ++ "\n")] ∧
    (csi_logger.init sealedEnv "/var/log/csi" demo_state).trace
      = demo_state.trace ++ [Event.create_directories "/var/log/csi" true]
        ++ close_events demo_state.log_file_
        ++ open_events (csi_logger.init sealedEnv "/var/log/csi" demo_state).current_file_ false
        ++ [Event.cout ("CSI Logger initialized. Logging to: "
          ++ (csi_logger.init sealedEnv "/var/log/csi" demo_state).current_file_ ++ "\n")] ∧
    csi_logger.log_csi sealedEnv toyFloat 1 2 3 4 5 demo_matrix
        (some 9) none (some 11) (csi_logger.init sealedEnv "/var/log/csi" demo_state)
      = csi_logger.init sealedEnv "/var/log/csi" demo_state ∧
    csi_logger.log_csi_simple sealedEnv toyFloat 1 2 3 4 5
        demo_coeffs (some 9) (csi_logger.init sealedEnv "/var/log/csi" demo_state)
      = csi_logger.init sealedEnv "/var/log/csi" demo_state ∧
    run_calls sealedEnv toyFloat demo_calls (csi_logger.init sealedEnv "/var/log/csi" demo_state)
      = csi_logger.init sealedEnv "/var/log/csi" demo_state :=
  log_calls_after_open_failure sealedEnv toyFloat "/var/log/csi" demo_state demo_calls
    1 2 3 4 5 demo_matrix demo_coeffs (some 9) none (some 11) (by decide) (by decide)

/-! ## Rows are not headers -/

theorem toDigitsCore_not_mem (ch : Char) (hch : ∀ k, k < 10 → Nat.digitChar k ≠ ch)
    (fuel n : Nat) (ds : List Char) (h : ch ∉ ds) : ch ∉ Nat.toDigitsCore 10 fuel n ds := by
  induction fuel generalizing n ds with
  | zero => simpa [Nat.toDigitsCore] using h
  | succ f ih =>
    unfold Nat.toDigitsCore
    have hd := hch (n % 10) (Nat.mod_lt _ (by decide))
    have h2 : ch ∉ (Nat.digitChar (n % 10)) :: ds := by
      intro hm
      rcases List.mem_cons.mp hm with h3 | h3
      · exact hd h3.symm
      · exact h h3
    by_cases h0 : n / 10 = 0
    · simpa only [h0, if_true] using h2
    · simp only [h0, if_false]
      exact ih _ _ h2

/-- The decimal text of a number contains no character that is not a digit. -/
theorem toString_nat_not_mem (ch : Char) (hch : ∀ k, k < 10 → Nat.digitChar k ≠ ch) (n : Nat) :
    ch ∉ (toString n).data := by
  show ch ∉ Nat.toDigits 10 n
  exact toDigitsCore_not_mem ch hch _ _ _ (by simp)

theorem toString_nat_data_ne_nil (n : Nat) : (toString n).data ≠ [] := by
  intro h0
  have h3 : toString n = "" := String.ext h0
  have h4 := decimal_value_toString n
  rw [h3] at h4
  have h5 : n = 0 := h4.symm
  subst h5
  exact absurd h3 (by decide)

/-- A timestamp starts with a digit of the year, not with the letter `t`. -/
theorem timestamp_head (env : Env) (s : csi_logger) :
    ∃ ch rest, (csi_logger.get_timestamp_string env s).1.data = ch :: rest ∧ ch ≠ 't' := by
  have hne := toString_nat_data_ne_nil ((env.now s.tick).local_tm.tm_year + 1900)
  have hno := toString_nat_not_mem 't' (fun k hk => by interval_cases k <;> decide)
    ((env.now s.tick).local_tm.tm_year + 1900)
  cases hd : (toString ((env.now s.tick).local_tm.tm_year + 1900)).data with
  | nil => exact absurd hd hne
  | cons ch r =>
    rw [hd] at hno
    refine ⟨ch, (csi_logger.get_timestamp_string env s).1.data.tail, ?_,
      fun h => hno (h ▸ List.mem_cons_self ch r)⟩
    simp only [csi_logger.get_timestamp_string, put_time_stamp, String.data_append,
      List.append_assoc, hd, List.cons_append, List.tail_cons]

theorem csi_row_text_data {F : Type} (ops : FloatOps F) (timestamp : String)
    (slot_idx symbol_idx rnti prb_start nof_prb : Nat) (rsrp_db rsrq_db sinr_db : F)
    (e : Nat × Nat × Nat × Nat × complex F) :
    ∃ rest, (csi_row_text ops timestamp slot_idx symbol_idx rnti prb_start nof_prb rsrp_db
      rsrq_db sinr_db e).data = timestamp.data ++ rest := by
  simp only [csi_row_text, csi_logger.log_csi_row, String.data_append, List.append_assoc]
  exact ⟨_, rfl⟩

theorem simple_row_text_data {F : Type} (ops : FloatOps F) (timestamp : String)
    (slot_idx symbol_idx rnti prb_start nof_prb : Nat) (rsrp_db : F)
    (e : Nat × Nat × complex F) :
    ∃ rest, (simple_row_text ops timestamp slot_idx symbol_idx rnti prb_start nof_prb rsrp_db
      e).data = timestamp.data ++ rest := by
  simp only [simple_row_text, csi_logger.log_csi_simple_row, String.data_append,
    List.append_assoc]
  exact ⟨_, rfl⟩

theorem ne_csv_header_of_head (text : String) (ch : Char) (rest : List Char)
    (h : text.data = ch :: rest) (hch : ch ≠ 't') : (text == csv_header) = false := by
  rw [beq_eq_false_iff_ne]
  intro heq
  have h1 : csv_header.data.head? = some 't' := by decide
  rw [← heq, h] at h1
  simp only [List.head?_cons, Option.some.injEq] at h1
  exact hch h1

/-- The text of a row of `log_csi` is never the header line. -/
theorem csi_row_text_ne_header {F : Type} (env : Env) (s : csi_logger) (ops : FloatOps F)
    (slot_idx symbol_idx rnti prb_start nof_prb : Nat) (rsrp_db rsrq_db sinr_db : F)
    (e : Nat × Nat × Nat × Nat × complex F) :
    (csi_row_text ops (csi_logger.get_timestamp_string env s).1 slot_idx symbol_idx rnti
      prb_start nof_prb rsrp_db rsrq_db sinr_db e == csv_header) = false := by
  obtain ⟨ch, r, hts, hch⟩ := timestamp_head env s
  obtain ⟨rest, hrow⟩ := csi_row_text_data ops (csi_logger.get_timestamp_string env s).1
    slot_idx symbol_idx rnti prb_start nof_prb rsrp_db rsrq_db sinr_db e
  rw [hts, List.cons_append] at hrow
  exact ne_csv_header_of_head _ ch _ hrow hch

/-- The text of a row of `log_csi_simple` is never the header line. -/
theorem simple_row_text_ne_header {F : Type} (env : Env) (s : csi_logger) (ops : FloatOps F)
    (slot_idx symbol_idx rnti prb_start nof_prb : Nat) (rsrp_db : F)
    (e : Nat × Nat × complex F) :
    (simple_row_text ops (csi_logger.get_timestamp_string env s).1 slot_idx symbol_idx rnti
      prb_start nof_prb rsrp_db e == csv_header) = false := by
  obtain ⟨ch, r, hts, hch⟩ := timestamp_head env s
  obtain ⟨rest, hrow⟩ := simple_row_text_data ops (csi_logger.get_timestamp_string env s).1
    slot_idx symbol_idx rnti prb_start nof_prb rsrp_db e
  rw [hts, List.cons_append] at hrow
  exact ne_csv_header_of_head _ ch _ hrow hch

/-! ## Lazy initialization over a sequence of log calls -/

/-- The events of a log call on an initialized logger: only rows and a
flush, or nothing; the rotation counter and `initialized_` stay. -/
theorem do_call_initialized {F : Type} (env : Env) (ops : FloatOps F) (c : log_call F)
    (s : csi_logger) (hi : s.initialized_ = true) :
    (do_call env ops c s).initialized_ = true ∧
    (do_call env ops c s).file_rotation_counter_ = s.file_rotation_counter_ ∧
    (do_call env ops c s).log_dir_ = s.log_dir_ ∧
    ∃ extra, (do_call env ops c s).trace = s.trace ++ extra ∧
      ∀ e ∈ extra, is_create_directories e = false ∧ is_fopen e = false ∧
        is_header_write e = false := by
  by_cases ho : s.log_file_.is_open = true
  · cases c with
    | csi a b c d e cm x y z =>
      simp only [do_call]
      rw [log_csi_open_eq env ops a b c d e cm x y z s hi ho]
      refine ⟨hi, rfl, rfl, _, List.append_assoc _ _ _, ?_⟩
      intro ev hev
      rcases List.mem_append.mp hev with h1 | h1
      · obtain ⟨en, _, rfl⟩ := List.mem_map.mp h1
        exact ⟨rfl, rfl, csi_row_text_ne_header env s ops a b c d e x y z en⟩
      · rw [List.mem_singleton.mp h1]
        exact ⟨rfl, rfl, rfl⟩
    | simple a b c d e cc x =>
      simp only [do_call]
      rw [log_csi_simple_open_eq env ops a b c d e cc x s hi ho]
      refine ⟨hi, rfl, rfl, _, List.append_assoc _ _ _, ?_⟩
      intro ev hev
      rcases List.mem_append.mp hev with h1 | h1
      · obtain ⟨en, _, rfl⟩ := List.mem_map.mp h1
        exact ⟨rfl, rfl, simple_row_text_ne_header env s ops a b c d e x en⟩
      · rw [List.mem_singleton.mp h1]
        exact ⟨rfl, rfl, rfl⟩
  · simp only [Bool.not_eq_true] at ho
    rw [do_call_closed_eq env ops c s hi ho]
    exact ⟨hi, rfl, rfl, [], (List.append_nil _).symm, fun e he => by simp at he⟩

theorem countP_append_of_all_false (p : Event → Bool) (t extra : List Event)
    (h : ∀ e ∈ extra, p e = false) : (t ++ extra).countP p = t.countP p := by
  rw [List.countP_append]
  have : extra.countP p = 0 := by
    rw [List.countP_eq_zero]
    intro e he
    rw [h e he]
    decide
  omega

/-- A sequence of log calls on an initialized logger performs no `init` and
no rotation and writes no header. -/
theorem run_calls_initialized {F : Type} (env : Env) (ops : FloatOps F)
    (calls : List (log_call F)) (s : csi_logger) (hi : s.initialized_ = true) :
    (run_calls env ops calls s).initialized_ = true ∧
    (run_calls env ops calls s).file_rotation_counter_ = s.file_rotation_counter_ ∧
    (run_calls env ops calls s).log_dir_ = s.log_dir_ ∧
    (run_calls env ops calls s).trace.countP is_create_directories
      = s.trace.countP is_create_directories ∧
    (run_calls env ops calls s).trace.countP is_fopen = s.trace.countP is_fopen ∧
    (run_calls env ops calls s).trace.countP is_header_write
      = s.trace.countP is_header_write := by
  induction calls generalizing s with
  | nil => exact ⟨hi, rfl, rfl, rfl, rfl, rfl⟩
  | cons c cs ih =>
    obtain ⟨h1, h2, h3, extra, h4, h5⟩ := do_call_initialized env ops c s hi
    obtain ⟨i1, i2, i3, i4, i5, i6⟩ := ih (do_call env ops c s) h1
    have hrun : run_calls env ops (c :: cs) s = run_calls env ops cs (do_call env ops c s) :=
      rfl
    rw [hrun, i2, i3, i4, i5, i6, h2, h3, h4,
      countP_append_of_all_false _ _ _ (fun e he => (h5 e he).1),
      countP_append_of_all_false _ _ _ (fun e he => (h5 e he).2.1),
      countP_append_of_all_false _ _ _ (fun e he => (h5 e he).2.2)]
    exact ⟨i1, rfl, rfl, rfl, rfl, rfl⟩

/-- A log call on a logger that is not initialized, when `init` succeeds in
creating the directory, is `init` with the default directory followed by
the same call. -/
theorem do_call_uninit_eq {F : Type} (env : Env) (ops : FloatOps F) (c : log_call F)
    (s : csi_logger) (hi : s.initialized_ = false)
    (hdir : env.create_directories s.tick default_log_dir = none) :
    do_call env ops c s = do_call env ops c (csi_logger.init env default_log_dir s) := by
  have hRi : (csi_logger.init env default_log_dir s).initialized_ = true := by
    rw [init_ok_eq env default_log_dir s hdir]
  cases c with
  | csi a b c d e cm x y z =>
    simp only [do_call]
    rw [log_csi_uninit_eq env ops a b c d e cm x y z s hi (fun _ => hRi)]
    split
    · rfl
    · rename_i ho
      simp only [Bool.not_eq_true] at ho
      rw [log_csi_closed_eq env ops a b c d e cm x y z _ hRi ho]
  | simple a b c d e cc x =>
    simp only [do_call]
    rw [log_csi_simple_uninit_eq env ops a b c d e cc x s hi (fun _ => hRi)]
    split
    · rfl
    · rename_i ho
      simp only [Bool.not_eq_true] at ho
      rw [log_csi_simple_closed_eq env ops a b c d e cc x _ hRi ho]

/-- C11, as stated, fails: when the default directory cannot be created, two
log calls from the never-initialized state execute `init` twice (once per
call), perform no rotation and write no header. -/
theorem lazy_init_retried_on_failure :
    (run_calls stormEnv toyFloat demo_calls csi_logger.initial).trace.countP
        is_create_directories = 2 ∧
    (run_calls stormEnv toyFloat demo_calls csi_logger.initial).trace.countP is_fopen = 0 ∧
    (run_calls stormEnv toyFloat demo_calls csi_logger.initial).trace.countP
        is_header_write = 0 ∧
    (run_calls stormEnv toyFloat demo_calls csi_logger.initial).file_rotation_counter_ = 0 ∧
    (run_calls stormEnv toyFloat demo_calls csi_logger.initial).initialized_ = false := by
  decide

/-- The events of the first `init` of a process, with the default
directory. -/
theorem init_initial_trace (env : Env)
    (hdir : env.create_directories 0 default_log_dir = none) :
    (csi_logger.init env default_log_dir csi_logger.initial).trace
      = Event.create_directories "/tmp/csi_logs" true ::
        (open_events (csi_logger.file_name default_log_dir (env.now 1) 0)
            (env.open_ok 2 (csi_logger.file_name default_log_dir (env.now 1) 0))
          ++ [Event.cout ("CSI Logger initialized. Logging to: "
            ++ csi_logger.file_name default_log_dir (env.now 1) 0 ++ "\n")]) := by
  rw [init_ok_eq env default_log_dir csi_logger.initial hdir]
  rfl

theorem init_initial_counts (env : Env)
    (hdir : env.create_directories 0 default_log_dir = none) :
    (csi_logger.init env default_log_dir csi_logger.initial).trace.countP
        is_create_directories = 1 ∧
    (csi_logger.init env default_log_dir csi_logger.initial).trace.countP is_fopen = 1 ∧
    (csi_logger.init env default_log_dir csi_logger.initial).trace.countP is_header_write
      = (if env.open_ok 2 (csi_logger.file_name default_log_dir (env.now 1) 0) then 1 else 0) := by
  rw [init_initial_trace env hdir]
  cases env.open_ok 2 (csi_logger.file_name default_log_dir (env.now 1) 0) <;>
  simp [open_events, is_create_directories, is_fopen, is_header_write, List.countP_cons]

/-- C11 (amended): starting from the never-initialized state, when the
default directory `/tmp/csi_logs` can be created at the first call, in every
sequence of one or more `log_csi` / `log_csi_simple` calls the implicit `init`
is executed exactly once, on the first call, and exactly one rotation is
performed over the whole sequence; the header is written exactly once when
the file of that rotation can be opened, and not at all when it cannot. -/
theorem lazy_init_once {F : Type} (env : Env) (ops : FloatOps F) (c : log_call F)
    (cs : List (log_call F)) (hdir : env.create_directories 0 default_log_dir = none) :
    (do_call env ops c csi_logger.initial).initialized_ = true ∧
    (do_call env ops c csi_logger.initial).trace.head?
      = some (Event.create_directories "/tmp/csi_logs" true) ∧
    (do_call env ops c csi_logger.initial).trace.countP is_create_directories = 1 ∧
    (do_call env ops c csi_logger.initial).trace.countP is_fopen = 1 ∧
    (run_calls env ops (c :: cs) csi_logger.initial).log_dir_ = "/tmp/csi_logs" ∧
    (run_calls env ops (c :: cs) csi_logger.initial).trace.countP is_create_directories = 1 ∧
    (run_calls env ops (c :: cs) csi_logger.initial).trace.countP is_fopen = 1 ∧
    (run_calls env ops (c :: cs) csi_logger.initial).file_rotation_counter_ = 1 ∧
    (run_calls env ops (c :: cs) csi_logger.initial).trace.countP is_header_write
      = (if env.open_ok 2 (csi_logger.file_name default_log_dir (env.now 1) 0) then 1 else 0) := by
  have hRi : (csi_logger.init env default_log_dir csi_logger.initial).initialized_ = true := by
    rw [init_ok_eq env default_log_dir csi_logger.initial hdir]
  have hcnt : (csi_logger.init env default_log_dir csi_logger.initial).file_rotation_counter_
      = 1 := by
    rw [init_ok_eq env default_log_dir csi_logger.initial hdir]
    rfl
  have hld : (csi_logger.init env default_log_dir csi_logger.initial).log_dir_
      = "/tmp/csi_logs" := by
    rw [init_ok_eq env default_log_dir csi_logger.initial hdir]
    rfl
  obtain ⟨k1, k2, k3⟩ := init_initial_counts env hdir
  have hfirst := do_call_uninit_eq env ops c csi_logger.initial rfl hdir
  have hrun : run_calls env ops (c :: cs) csi_logger.initial
      = run_calls env ops (c :: cs) (csi_logger.init env default_log_dir csi_logger.initial) := by
    show run_calls env ops cs (do_call env ops c csi_logger.initial)
      = run_calls env ops cs (do_call env ops c _)
    rw [hfirst]
  obtain ⟨d1, _, _, extra, d4, d5⟩ := do_call_initialized env ops c _ hRi
  obtain ⟨_, r2, r3, r4, r5, r6⟩ := run_calls_initialized env ops (c :: cs) _ hRi
  rw [hrun, hfirst, r2, r3, r4, r5, r6, hcnt, hld, k1, k2, k3]
  refine ⟨d1, ?_, ?_, ?_, rfl, rfl, rfl, rfl, rfl⟩
  · rw [d4, init_initial_trace env hdir]
    rfl
  · rw [d4, countP_append_of_all_false _ _ _ (fun e he => (d5 e he).1), k1]
  · rw [d4, countP_append_of_all_false _ _ _ (fun e he => (d5 e he).2.1), k2]

theorem lazy_init_once_witness :
    (do_call calmEnv toyFloat
        (log_call.csi 1 2 3 4 5 demo_matrix (some 9) none (some 11)) csi_logger.initial).initialized_ = true ∧
    (do_call calmEnv toyFloat
        (log_call.csi 1 2 3 4 5 demo_matrix (some 9) none (some 11)) csi_logger.initial).trace.head?
      = some (Event.create_directories "/tmp/csi_logs" true) ∧
    (do_call calmEnv toyFloat
        (log_call.csi 1 2 3 4 5 demo_matrix (some 9) none (some 11)) csi_logger.initial).trace.countP is_create_directories = 1 ∧
    (do_call calmEnv toyFloat
        (log_call.csi 1 2 3 4 5 demo_matrix (some 9) none (some 11)) csi_logger.initial).trace.countP is_fopen = 1 ∧
    (run_calls calmEnv toyFloat
        ((log_call.csi 1 2 3 4 5 demo_matrix (some 9) none (some 11)) :: demo_calls) csi_logger.initial).log_dir_ = "/tmp/csi_logs" ∧
    (run_calls calmEnv toyFloat
        ((log_call.csi 1 2 3 4 5 demo_matrix (some 9) none (some 11)) :: demo_calls) csi_logger.initial).trace.countP is_create_directories = 1 ∧
    (run_calls calmEnv toyFloat
        ((log_call.csi 1 2 3 4 5 demo_matrix (some 9) none (some 11)) :: demo_calls) csi_logger.initial).trace.countP is_fopen = 1 ∧
    (run_calls calmEnv toyFloat
        ((log_call.csi 1 2 3 4 5 demo_matrix (some 9) none (some 11)) :: demo_calls) csi_logger.initial).file_rotation_counter_ = 1 ∧
    (run_calls calmEnv toyFloat
        ((log_call.csi 1 2 3 4 5 demo_matrix (some 9) none (some 11)) :: demo_calls) csi_logger.initial).trace.countP is_header_write
      = (if calmEnv.open_ok 2 (csi_logger.file_name default_log_dir (calmEnv.now 1) 0) then 1 else 0) :=
  lazy_init_once calmEnv toyFloat (log_call.csi 1 2 3 4 5 demo_matrix (some 9) none (some 11))
    demo_calls (by decide)

/-! ## The `prb_idx` column -/

theorem csi_entries_prb_lt {F : Type}
    (channel_matrix : List (List (List (List (complex F)))))
    (e : Nat × Nat × Nat × Nat × complex F) (h : e ∈ csi_entries channel_matrix) :
    ∃ layers ∈ channel_matrix, ∃ prbs ∈ layers, e.2.2.1 < prbs.length := by
  simp only [csi_entries, List.mem_flatMap, List.mem_map] at h
  obtain ⟨pl, hpl, lp, hlp, bp, hbp, rv, _, rfl⟩ := h
  exact ⟨pl.2, snd_mem_of_mem_enum hpl, lp.2, snd_mem_of_mem_enum hlp, fst_lt_of_mem_enum hbp⟩

theorem simple_entries_prb_lt {F : Type} (nof_prb : Nat)
    (channel_coeffs : List (List (complex F)))
    (e : Nat × Nat × complex F) (h : e ∈ simple_entries nof_prb channel_coeffs) :
    e.1 < channel_coeffs.length ∧ e.1 < nof_prb := by
  simp only [simple_entries, List.mem_flatMap, List.mem_map] at h
  obtain ⟨bp, hbp, rv, _, rfl⟩ := h
  have := fst_lt_of_mem_enum hbp
  simp only [List.length_take] at this
  exact ⟨lt_of_lt_of_le this (Nat.min_le_right _ _), lt_of_lt_of_le this (Nat.min_le_left _ _)⟩

/-- C15: for a 32-bit `prb_start` and vectors of PRBs with fewer than `2^63`
elements (as every `std::vector` has when `size_t` is 64 bits wide), in every
row written by `log_csi` and `log_csi_simple` the `prb_idx` field (field 6 of
the 17) is the decimal text of the exact sum `prb_start + prb_idx`, with no
wrap-around (`prb_start = 4294967295` and `prb_idx = 1` give `4294967296`),
and the `prb_start` and `nof_prb` fields (fields 4 and 5) are the decimal
texts of the arguments. -/
theorem prb_idx_column_exact {F : Type} (ops : FloatOps F) (timestamp : String)
    (slot_idx symbol_idx rnti prb_start nof_prb : Nat)
    (channel_matrix : List (List (List (List (complex F)))))
    (channel_coeffs : List (List (complex F))) (rsrp_db rsrq_db sinr_db : F)
    (hstart : prb_start < 4294967296)
    (hlen : ∀ layers ∈ channel_matrix, ∀ prbs ∈ layers, prbs.length < 9223372036854775808)
    (hlen2 : channel_coeffs.length < 9223372036854775808) :
    (∀ e ∈ csi_entries channel_matrix,
      csi_row_text ops timestamp slot_idx symbol_idx rnti prb_start nof_prb rsrp_db rsrq_db
          sinr_db e
        = ",".intercalate (csi_row_fields ops timestamp slot_idx symbol_idx rnti prb_start nof_prb rsrp_db rsrq_db
          sinr_db e) ++ "\n" ∧
      (csi_row_fields ops timestamp slot_idx symbol_idx rnti prb_start nof_prb rsrp_db rsrq_db
          sinr_db e)[4]? = some (toString prb_start) ∧
      (csi_row_fields ops timestamp slot_idx symbol_idx rnti prb_start nof_prb rsrp_db rsrq_db
          sinr_db e)[5]? = some (toString nof_prb) ∧
      (csi_row_fields ops timestamp slot_idx symbol_idx rnti prb_start nof_prb rsrp_db rsrq_db
          sinr_db e)[6]? = some (toString (prb_start + e.2.2.1))) ∧
    (∀ e ∈ simple_entries nof_prb channel_coeffs,
      simple_row_text ops timestamp slot_idx symbol_idx rnti prb_start nof_prb rsrp_db e
        = ",".intercalate (simple_row_fields ops timestamp slot_idx symbol_idx rnti prb_start nof_prb rsrp_db e) ++ "\n" ∧
      (simple_row_fields ops timestamp slot_idx symbol_idx rnti prb_start nof_prb rsrp_db e)[4]? = some (toString prb_start) ∧
      (simple_row_fields ops timestamp slot_idx symbol_idx rnti prb_start nof_prb rsrp_db e)[5]? = some (toString nof_prb) ∧
      (simple_row_fields ops timestamp slot_idx symbol_idx rnti prb_start nof_prb rsrp_db e)[6]? = some (toString (prb_start + e.1))) ∧
    (∀ (port layer re_idx : Nat) (v : complex F),
      (csi_row_fields ops timestamp slot_idx symbol_idx rnti 4294967295 nof_prb rsrp_db rsrq_db
          sinr_db
        (port, layer, 1, re_idx, v))[6]? = some "4294967296") ∧
    (∀ (re_idx : Nat) (v : complex F),
      (simple_row_fields ops timestamp slot_idx symbol_idx rnti 4294967295 nof_prb rsrp_db
        (1, re_idx, v))[6]? = some "4294967296") := by
  have hex : toString ((4294967295 + 1) % 18446744073709551616) = "4294967296" := by decide
  refine ⟨?_, ?_, fun _ _ _ _ => congrArg some hex, fun _ _ => congrArg some hex⟩
  · intro e he
    obtain ⟨layers, hl, prbs, hp, hlt⟩ := csi_entries_prb_lt channel_matrix e he
    have hb := hlen layers hl prbs hp
    refine ⟨csi_row_text_eq_fields _ _ _ _ _ _ _ _ _ _ _, rfl, rfl, ?_⟩
    have hmod : (prb_start + e.2.2.1) % 18446744073709551616 = prb_start + e.2.2.1 :=
      Nat.mod_eq_of_lt (by omega)
    simp only [csi_row_fields, hmod]
    rfl
  · intro e he
    have hlt := (simple_entries_prb_lt nof_prb channel_coeffs e he).1
    refine ⟨simple_row_text_eq_fields _ _ _ _ _ _ _ _ _, rfl, rfl, ?_⟩
    have hmod : (prb_start + e.1) % 18446744073709551616 = prb_start + e.1 :=
      Nat.mod_eq_of_lt (by omega)
    simp only [simple_row_fields, hmod]
    rfl

theorem prb_idx_column_exact_witness :
    (∀ e ∈ csi_entries demo_matrix,
      csi_row_text toyFloat "t" 1 2 3 4294967295 5 (some 9) none
          (some 11) e
        = ",".intercalate (csi_row_fields toyFloat "t" 1 2 3 4294967295 5 (some 9) none
          (some 11) e) ++ "\n" ∧
      (csi_row_fields toyFloat "t" 1 2 3 4294967295 5 (some 9) none
          (some 11) e)[4]? = some (toString 4294967295) ∧
      (csi_row_fields toyFloat "t" 1 2 3 4294967295 5 (some 9) none
          (some 11) e)[5]? = some (toString 5) ∧
      (csi_row_fields toyFloat "t" 1 2 3 4294967295 5 (some 9) none
          (some 11) e)[6]? = some (toString (4294967295 + e.2.2.1))) ∧
    (∀ e ∈ simple_entries 5 demo_coeffs,
      simple_row_text toyFloat "t" 1 2 3 4294967295 5 (some 9) e
        = ",".intercalate (simple_row_fields toyFloat "t" 1 2 3 4294967295 5 (some 9) e) ++ "\n" ∧
      (simple_row_fields toyFloat "t" 1 2 3 4294967295 5 (some 9) e)[4]? = some (toString 4294967295) ∧
      (simple_row_fields toyFloat "t" 1 2 3 4294967295 5 (some 9) e)[5]? = some (toString 5) ∧
      (simple_row_fields toyFloat "t" 1 2 3 4294967295 5 (some 9) e)[6]? = some (toString (4294967295 + e.1))) ∧
    (∀ (port layer re_idx : Nat) (v : complex (Option Nat)),
      (csi_row_fields toyFloat "t" 1 2 3 4294967295 5 (some 9) none
          (some 11)
        (port, layer, 1, re_idx, v))[6]? = some "4294967296") ∧
    (∀ (re_idx : Nat) (v : complex (Option Nat)),
      (simple_row_fields toyFloat "t" 1 2 3 4294967295 5 (some 9)
        (1, re_idx, v))[6]? = some "4294967296") :=
  prb_idx_column_exact toyFloat "t" 1 2 3 4294967295 5 demo_matrix demo_coeffs (some 9) none
    (some 11) (by decide) (by simp [demo_matrix]) (by decide)

/-! ## Seventeen fields per row -/

theorem count_comma_toString (n : Nat) : (toString n).data.count ',' = 0 :=
  List.count_eq_zero.mpr
    (toString_nat_not_mem ',' (fun k hk => by interval_cases k <;> decide) n)

theorem count_comma_metric_field {F : Type} (ops : FloatOps F)
    (hr : ∀ x, ',' ∉ (ops.render sci6 x).data) (carries : Bool) (x : F) :
    (metric_field ops carries x).data.count ',' = 0 := by
  unfold metric_field
  split
  · exact List.count_eq_zero.mpr (hr x)
  · rfl

/-- C16: provided the timestamp and the texts `operator<<` produces for
floats contain no comma (the decimal texts of the integers contain none),
every row of `log_csi` and of `log_csi_simple`, for every entry and every
combination of NaN and valid metrics, consists of 17 fields separated by
exactly 16 commas and ends with a newline, as the header line does. -/
theorem row_has_17_fields {F : Type} (ops : FloatOps F) (timestamp : String)
    (slot_idx symbol_idx rnti prb_start nof_prb : Nat) (rsrp_db rsrq_db sinr_db : F)
    (e : Nat × Nat × Nat × Nat × complex F) (e2 : Nat × Nat × complex F)
    (hts : ',' ∉ timestamp.data) (hr : ∀ x, ',' ∉ (ops.render sci6 x).data) :
    comma_count (csi_row_text ops timestamp slot_idx symbol_idx rnti prb_start nof_prb rsrp_db rsrq_db
        sinr_db e) = 16 ∧
    (csi_row_text ops timestamp slot_idx symbol_idx rnti prb_start nof_prb rsrp_db rsrq_db
        sinr_db e).data.getLast? = some '\n' ∧
    (csi_row_fields ops timestamp slot_idx symbol_idx rnti prb_start nof_prb rsrp_db rsrq_db
        sinr_db e).length = 17 ∧
    csi_row_text ops timestamp slot_idx symbol_idx rnti prb_start nof_prb rsrp_db rsrq_db
        sinr_db e
      = ",".intercalate (csi_row_fields ops timestamp slot_idx symbol_idx rnti prb_start nof_prb rsrp_db rsrq_db
        sinr_db e) ++ "\n" ∧
    comma_count (simple_row_text ops timestamp slot_idx symbol_idx rnti prb_start nof_prb rsrp_db e2) = 16 ∧
    (simple_row_text ops timestamp slot_idx symbol_idx rnti prb_start nof_prb rsrp_db e2).data.getLast? = some '\n' ∧
    (simple_row_fields ops timestamp slot_idx symbol_idx rnti prb_start nof_prb rsrp_db e2).length = 17 ∧
    simple_row_text ops timestamp slot_idx symbol_idx rnti prb_start nof_prb rsrp_db e2
      = ",".intercalate (simple_row_fields ops timestamp slot_idx symbol_idx rnti prb_start nof_prb rsrp_db e2) ++ "\n" ∧
    comma_count csv_header = 16 ∧ csv_header.data.getLast? = some '\n' := by
  have h1 := csi_row_text_eq_fields ops timestamp slot_idx symbol_idx rnti prb_start nof_prb
    rsrp_db rsrq_db sinr_db e
  have h2 := simple_row_text_eq_fields ops timestamp slot_idx symbol_idx rnti prb_start nof_prb
    rsrp_db e2
  have ht : timestamp.data.count ',' = 0 := List.count_eq_zero.mpr hts
  have hf : ∀ x, (ops.render sci6 x).data.count ',' = 0 :=
    fun x => List.count_eq_zero.mpr (hr x)
  have hm := count_comma_metric_field ops hr
  have hc : (",".data : List Char) = [','] := rfl
  have hn : ("\n".data : List Char) = ['\n'] := rfl
  have hz : ("0".data : List Char) = ['0'] := rfl
  have he : ("".data : List Char) = [] := rfl
  refine ⟨?_, ?_, rfl, h1, ?_, ?_, rfl, h2, by decide, by decide⟩
  · rw [h1]
    simp [comma_count, csi_row_fields, String.intercalate, String.intercalate.go,
      String.data_append, List.count_append, ht, hf, hm, count_comma_toString, hc, hn]
  · rw [h1]
    simp [String.data_append, hn]
  · rw [h2]
    simp [comma_count, simple_row_fields, String.intercalate, String.intercalate.go,
      String.data_append, List.count_append, ht, hf, hm, count_comma_toString, hc, hn, hz, he]
  · rw [h2]
    simp [String.data_append, hn]

theorem row_has_17_fields_witness :
    comma_count (csi_row_text toyFloat "t" 1 2 3 4 5 (some 9) none
        (some 11) (0, 0, 0, 0, ⟨some 1, some 2⟩)) = 16 ∧
    (csi_row_text toyFloat "t" 1 2 3 4 5 (some 9) none
        (some 11) (0, 0, 0, 0, ⟨some 1, some 2⟩)).data.getLast? = some '\n' ∧
    (csi_row_fields toyFloat "t" 1 2 3 4 5 (some 9) none
        (some 11) (0, 0, 0, 0, ⟨some 1, some 2⟩)).length = 17 ∧
    csi_row_text toyFloat "t" 1 2 3 4 5 (some 9) none
        (some 11) (0, 0, 0, 0, ⟨some 1, some 2⟩)
      = ",".intercalate (csi_row_fields toyFloat "t" 1 2 3 4 5 (some 9) none
        (some 11) (0, 0, 0, 0, ⟨some 1, some 2⟩)) ++ "\n" ∧
    comma_count (simple_row_text toyFloat "t" 1 2 3 4 5 (some 9) (0, 0, ⟨some 1, some 2⟩)) = 16 ∧
    (simple_row_text toyFloat "t" 1 2 3 4 5 (some 9) (0, 0, ⟨some 1, some 2⟩)).data.getLast? = some '\n' ∧
    (simple_row_fields toyFloat "t" 1 2 3 4 5 (some 9) (0, 0, ⟨some 1, some 2⟩)).length = 17 ∧
    simple_row_text toyFloat "t" 1 2 3 4 5 (some 9) (0, 0, ⟨some 1, some 2⟩)
      = ",".intercalate (simple_row_fields toyFloat "t" 1 2 3 4 5 (some 9) (0, 0, ⟨some 1, some 2⟩)) ++ "\n" ∧
    comma_count csv_header = 16 ∧ csv_header.data.getLast? = some '\n' :=
  row_has_17_fields toyFloat "t" 1 2 3 4 5 (some 9) none (some 11)
    (0, 0, 0, 0, ⟨some 1, some 2⟩) (0, 0, ⟨some 1, some 2⟩) (by decide)
    (fun x => by
      cases x with
      | none => decide
      | some n =>
        have h1 : toyFloat.render sci6 (some n) = toString n ++ ".000000e+00" := by
          simp only [toyFloat, sci6]
          rw [String.append_assoc, String.append_assoc]
          rfl
        rw [h1, String.data_append]
        intro hm
        rcases List.mem_append.mp hm with h | h
        · exact toString_nat_not_mem ',' (fun k hk => by interval_cases k <;> decide) n h
        · exact absurd h (by decide))

/-! ## `log_csi_simple` and `log_csi` on one port and one layer -/

/-- With NaN for `rsrq_db` and `sinr_db`, the row of `log_csi` for port 0 and
layer 0 is the row of `log_csi_simple`, text and format state. -/
theorem log_csi_row_eq_simple_row {F : Type} (ops : FloatOps F) (fmt : FmtState)
    (timestamp : String) (slot_idx symbol_idx rnti prb_start nof_prb : Nat)
    (rsrp_db nan : F) (hnan : ops.isnan nan = true) (prb_idx re_idx : Nat)
    (csi_value : complex F) :
    csi_logger.log_csi_row ops fmt timestamp slot_idx symbol_idx rnti prb_start nof_prb
        rsrp_db nan nan 0 0 prb_idx re_idx csi_value
      = csi_logger.log_csi_simple_row ops fmt timestamp slot_idx symbol_idx rnti prb_start
          nof_prb rsrp_db prb_idx re_idx csi_value := by
  have h3 : (",,," : String) = "," ++ ("," ++ ",") := by decide
  have h2 : (",," : String) = "," ++ "," := by decide
  have h0 : ("0," : String) = "0" ++ "," := by decide
  have ht : toString (0 : Nat) = "0" := by decide
  unfold csi_logger.log_csi_row csi_logger.log_csi_simple_row csi_logger.log_csi_tail
    csi_logger.log_csi_simple_tail
  by_cases hb : prb_idx = 0 <;> by_cases hr : re_idx = 0 <;> cases ops.isnan rsrp_db <;>
  simp [-String.reduceAppend, String.append_assoc, h3, h2, h0, ht, hnan, hb, hr]

/-- The entries `log_csi` visits on `[[channel_coeffs.take nof_prb]]` are those
`log_csi_simple` visits on `channel_coeffs`, with port 0 and layer 0. -/
theorem csi_entries_single {F : Type} (nof_prb : Nat)
    (channel_coeffs : List (List (complex F))) :
    csi_entries [[channel_coeffs.take nof_prb]]
      = (simple_entries nof_prb channel_coeffs).map lift_entry := by
  simp only [csi_entries, simple_entries, List.enum_cons, List.enumFrom_nil,
    List.flatMap_cons, List.flatMap_nil, List.append_nil, List.map_flatMap, List.map_map]
  rfl

theorem loops_single_eq {F : Type} (ops : FloatOps F) (timestamp : String)
    (slot_idx symbol_idx rnti prb_start nof_prb : Nat)
    (channel_coeffs : List (List (complex F))) (rsrp_db nan : F)
    (hnan : ops.isnan nan = true) (s : csi_logger) :
    [[channel_coeffs.take nof_prb]].enum.foldl (fun acc pl =>
      pl.2.enum.foldl (fun acc lp =>
        lp.2.enum.foldl (fun acc bp =>
          (bp.2.take 12).enum.foldl (fun acc rv =>
            csi_logger.put_row (fun fmt => csi_logger.log_csi_row ops fmt timestamp slot_idx
              symbol_idx rnti prb_start nof_prb rsrp_db nan nan pl.1 lp.1 bp.1 rv.1 rv.2) acc)
            acc) acc) acc) s
      = (channel_coeffs.take nof_prb).enum.foldl (fun acc bp =>
          (bp.2.take 12).enum.foldl (fun acc rv =>
            csi_logger.put_row (fun fmt => csi_logger.log_csi_simple_row ops fmt timestamp
              slot_idx symbol_idx rnti prb_start nof_prb rsrp_db bp.1 rv.1 rv.2) acc)
            acc) s := by
  have h1 := log_csi_loops_eq (fun e acc =>
    csi_logger.put_row (fun fmt => csi_logger.log_csi_row ops fmt timestamp slot_idx symbol_idx
      rnti prb_start nof_prb rsrp_db nan nan e.1 e.2.1 e.2.2.1 e.2.2.2.1 e.2.2.2.2) acc)
    [[channel_coeffs.take nof_prb]] s
  have h2 := log_csi_simple_loops_eq (fun e acc =>
    csi_logger.put_row (fun fmt => csi_logger.log_csi_simple_row ops fmt timestamp slot_idx
      symbol_idx rnti prb_start nof_prb rsrp_db e.1 e.2.1 e.2.2) acc)
    nof_prb channel_coeffs s
  dsimp only at h1 h2
  rw [h1, h2, csi_entries_single, List.foldl_map]
  simp only [lift_entry, log_csi_row_eq_simple_row ops _ timestamp slot_idx symbol_idx rnti
    prb_start nof_prb rsrp_db nan hnan]

/-- The entries `log_csi` visits on `[[channel_coeffs]]` start with those
`log_csi_simple` visits; the remaining ones belong to PRBs from index
`nof_prb` on. -/
theorem csi_entries_single_split {F : Type} (nof_prb : Nat)
    (channel_coeffs : List (List (complex F))) :
    ∃ rest, csi_entries [[channel_coeffs]]
        = (simple_entries nof_prb channel_coeffs).map lift_entry ++ rest ∧
      ∀ e ∈ rest, nof_prb ≤ e.2.2.1 := by
  have hfull : csi_entries [[channel_coeffs]]
      = (simple_entries channel_coeffs.length channel_coeffs).map lift_entry := by
    have h := csi_entries_single channel_coeffs.length channel_coeffs
    rw [List.take_of_length_le (le_refl _)] at h
    exact h
  have hsplit : (List.take channel_coeffs.length channel_coeffs).enum
      = (channel_coeffs.take nof_prb).enum
        ++ List.enumFrom (channel_coeffs.take nof_prb).length (channel_coeffs.drop nof_prb) := by
    rw [List.take_of_length_le (le_refl _), ← List.enum_append, List.take_append_drop]
  refine ⟨((List.enumFrom (channel_coeffs.take nof_prb).length
      (channel_coeffs.drop nof_prb)).flatMap fun bp =>
        (bp.2.take 12).enum.map fun rv => (bp.1, rv.1, rv.2)).map lift_entry, ?_, ?_⟩
  · rw [hfull]
    simp only [simple_entries]
    rw [hsplit, List.flatMap_append, List.map_append]
  · intro e he
    simp only [List.mem_map, List.mem_flatMap] at he
    obtain ⟨e0, ⟨⟨i, x⟩, hbp, rv, _, rfl⟩, rfl⟩ := he
    have h1 := List.mem_enumFrom hbp
    have h2 : (channel_coeffs.drop nof_prb).length = channel_coeffs.length - nof_prb :=
      List.length_drop _ _
    have h3 : (channel_coeffs.take nof_prb).length = min nof_prb channel_coeffs.length :=
      List.length_take _ _
    simp only [lift_entry]
    omega

/-- Supporting C17 (see `csi_logger.log_csi` for the declared parameter type,
which does not accept `[[channel_coeffs]]`): on the four-level matrix of the
body, for every state, every `channel_coeffs`, `rsrp_db` and `nof_prb`,
with NaN passed to `log_csi` for `rsrq_db` and `sinr_db`, `log_csi_simple` does
exactly what `log_csi` does on the one-port one-layer matrix made of the
first `nof_prb` PRBs of `channel_coeffs` (same resulting state, hence same
events and same text); when `nof_prb` is at least the number of PRBs this is
`log_csi` on `[[channel_coeffs]]`; in general the rows of `log_csi` on
`[[channel_coeffs]]` are the rows of `log_csi_simple` followed by the rows of
the PRBs from index `nof_prb` on. -/
theorem log_csi_simple_eq_log_csi {F : Type} (env : Env) (ops : FloatOps F)
    (slot_idx symbol_idx rnti prb_start nof_prb : Nat)
    (channel_coeffs : List (List (complex F))) (rsrp_db nan : F) (s : csi_logger)
    (hnan : ops.isnan nan = true) :
    csi_logger.log_csi_simple env ops slot_idx symbol_idx rnti prb_start nof_prb channel_coeffs rsrp_db s
      = csi_logger.log_csi env ops slot_idx symbol_idx rnti prb_start nof_prb [[channel_coeffs.take nof_prb]]
          rsrp_db nan nan s ∧
    (channel_coeffs.length ≤ nof_prb →
      csi_logger.log_csi_simple env ops slot_idx symbol_idx rnti prb_start nof_prb channel_coeffs rsrp_db s
        = csi_logger.log_csi env ops slot_idx symbol_idx rnti prb_start nof_prb [[channel_coeffs]] rsrp_db nan nan s) ∧
    (∃ rest, csi_entries [[channel_coeffs]]
        = (simple_entries nof_prb channel_coeffs).map lift_entry ++ rest ∧
      ∀ e ∈ rest, nof_prb ≤ e.2.2.1) ∧
    (∀ (timestamp : String) (e : Nat × Nat × complex F),
      csi_row_text ops timestamp slot_idx symbol_idx rnti prb_start nof_prb rsrp_db nan nan (lift_entry e)
        = simple_row_text ops timestamp slot_idx symbol_idx rnti prb_start nof_prb rsrp_db e) := by
  have hmain : csi_logger.log_csi_simple env ops slot_idx symbol_idx rnti prb_start nof_prb
      channel_coeffs rsrp_db s
      = csi_logger.log_csi env ops slot_idx symbol_idx rnti prb_start nof_prb
          [[channel_coeffs.take nof_prb]] rsrp_db nan nan s := by
    unfold csi_logger.log_csi csi_logger.log_csi_simple
    simp only [loops_single_eq ops _ slot_idx symbol_idx rnti prb_start nof_prb channel_coeffs
      rsrp_db nan hnan]
  refine ⟨hmain, ?_, csi_entries_single_split nof_prb channel_coeffs, ?_⟩
  · intro hle
    rw [hmain, List.take_of_length_le hle]
  · intro timestamp e
    unfold csi_row_text simple_row_text lift_entry
    rw [log_csi_row_eq_simple_row ops _ timestamp slot_idx symbol_idx rnti prb_start nof_prb
      rsrp_db nan hnan]

theorem log_csi_simple_eq_log_csi_witness :
    csi_logger.log_csi_simple calmEnv toyFloat 1 2 3 4 2 demo_coeffs (some 9) demo_state
      = csi_logger.log_csi calmEnv toyFloat 1 2 3 4 2 [[demo_coeffs.take 2]]
          (some 9) none none demo_state ∧
    (demo_coeffs.length ≤ 2 →
      csi_logger.log_csi_simple calmEnv toyFloat 1 2 3 4 2 demo_coeffs (some 9) demo_state
        = csi_logger.log_csi calmEnv toyFloat 1 2 3 4 2 [[demo_coeffs]] (some 9) none none demo_state) ∧
    (∃ rest, csi_entries [[demo_coeffs]]
        = (simple_entries 2 demo_coeffs).map lift_entry ++ rest ∧
      ∀ e ∈ rest, 2 ≤ e.2.2.1) ∧
    (∀ (timestamp : String) (e : Nat × Nat × complex (Option Nat)),
      csi_row_text toyFloat timestamp 1 2 3 4 2 (some 9) none none (lift_entry e)
        = simple_row_text toyFloat timestamp 1 2 3 4 2 (some 9) e) :=
  log_csi_simple_eq_log_csi calmEnv toyFloat 1 2 3 4 2 demo_coeffs (some 9) none demo_state
    (by decide)

/-! ## The decimal fields of a file name -/

theorem toDigitsCore_forall (P : Char → Prop) (hP : ∀ k, k < 10 → P (Nat.digitChar k))
    (fuel n : Nat) (ds : List Char) (h : ∀ ch ∈ ds, P ch) :
    ∀ ch ∈ Nat.toDigitsCore 10 fuel n ds, P ch := by
  induction fuel generalizing n ds with
  | zero => simpa [Nat.toDigitsCore] using h
  | succ f ih =>
    unfold Nat.toDigitsCore
    have hd := hP (n % 10) (Nat.mod_lt _ (by decide))
    have h2 : ∀ ch ∈ (Nat.digitChar (n % 10)) :: ds, P ch := by
      intro ch hm
      rcases List.mem_cons.mp hm with h3 | h3
      · rw [h3]
        exact hd
      · exact h ch h3
    by_cases h0 : n / 10 = 0
    · simpa only [h0, if_true] using h2
    · simp only [h0, if_false]
      exact ih _ _ h2

theorem toString_nat_forall (P : Char → Prop) (hP : ∀ k, k < 10 → P (Nat.digitChar k))
    (n : Nat) : ∀ ch ∈ (toString n).data, P ch := by
  show ∀ ch ∈ Nat.toDigits 10 n, P ch
  exact toDigitsCore_forall P hP _ _ _ (by simp)

theorem toString_nat_isDigit (n : Nat) : ∀ ch ∈ (toString n).data, ch.isDigit = true :=
  toString_nat_forall (fun ch => ch.isDigit = true)
    (fun k hk => by interval_cases k <;> decide) n

theorem toString_nat_digit_le (n : Nat) : ∀ ch ∈ (toString n).data, ch.toNat - 48 ≤ 9 :=
  toString_nat_forall (fun ch => ch.toNat - 48 ≤ 9)
    (fun k hk => by interval_cases k <;> decide) n

theorem foldl_decimal_lt (l : List Char) (h : ∀ ch ∈ l, ch.toNat - 48 ≤ 9) (a : Nat) :
    l.foldl (fun acc ch => acc * 10 + (ch.toNat - 48)) a + 1 ≤ (a + 1) * 10 ^ l.length := by
  induction l generalizing a with
  | nil => simp
  | cons ch l ih =>
    have h1 := h ch (List.mem_cons_self ch l)
    have h2 := ih (fun x hx => h x (List.mem_cons_of_mem ch hx)) (a * 10 + (ch.toNat - 48))
    rw [List.foldl_cons, List.length_cons, pow_succ]
    have h3 : (a * 10 + (ch.toNat - 48) + 1) * 10 ^ l.length
        ≤ ((a + 1) * 10) * 10 ^ l.length :=
      Nat.mul_le_mul_right _ (by omega)
    calc List.foldl (fun acc ch => acc * 10 + (ch.toNat - 48)) (a * 10 + (ch.toNat - 48)) l + 1
        ≤ (a * 10 + (ch.toNat - 48) + 1) * 10 ^ l.length := h2
      _ ≤ ((a + 1) * 10) * 10 ^ l.length := h3
      _ = (a + 1) * (10 ^ l.length * 10) := by ring

/-- A number is below the power of ten of the length of its decimal text. -/
theorem lt_pow_toString_length (n : Nat) : n < 10 ^ (toString n).length := by
  have h := foldl_decimal_lt (toString n).data (toString_nat_digit_le n) 0
  have hv : List.foldl (fun acc ch => acc * 10 + (ch.toNat - 48)) 0 (toString n).data = n :=
    decimal_value_toString n
  rw [hv, Nat.zero_add, Nat.one_mul] at h
  exact h

/-- The decimal text of a four-digit number is a decimal field of width 4. -/
theorem is_decimal_field_year (n : Nat) (h1 : 1000 ≤ n) (h2 : n ≤ 9999) :
    is_decimal_field (toString n) 4 n := by
  refine ⟨?_, toString_nat_isDigit n, decimal_value_toString n⟩
  have hle : (toString n).length ≤ 4 := Nat.repr_length n 4 (by decide) (by omega)
  have hlt := lt_pow_toString_length n
  have hge : 4 ≤ (toString n).length := by
    by_contra hcon
    have h3 : (toString n).length ≤ 3 := by omega
    have h4 : 10 ^ (toString n).length ≤ 10 ^ 3 := Nat.pow_le_pow_right (by decide) h3
    omega
  omega

/-- A zero-padded number that fits the width is a decimal field of that
width. -/
theorem is_decimal_field_setw_fill0 (w n : Nat) (h : n < 10 ^ w) (hw : 0 < w) :
    is_decimal_field (setw_fill0 w n) w n := by
  refine ⟨setw_fill0_length w n h hw, ?_, decimal_value_setw_fill0 w n⟩
  intro ch hch
  unfold setw_fill0 at hch
  rw [String.data_append] at hch
  rcases List.mem_append.mp hch with h1 | h1
  · have : ch = '0' := List.eq_of_mem_replicate h1
    rw [this]
    decide
  · exact toString_nat_isDigit n ch h1

/-! ## `init` opens one file with the documented name -/

/-- C7: when the directory can be created and the new file can be opened,
after `init` (from any reachable state, at a clock reading `t` that is a
valid local time with a four-digit year) the stream is open on the current
file, that file is the only file the process holds open, and its path is
`log_dir + "/csi_" + YYYY MM DD + "_" + HH MM SS + "_" + mmm + "_" + counter +
".csv"`: the year as 4 decimal digits, month (counted from 1), day, hour,
minute and second as 2 decimal digits each, the millisecond as 3 decimal
digits and the rotation counter before the call in decimal; the only text
written by the call is the 17-column header line, written to that file. -/
theorem init_opens_one_file {F : Type} (env : Env) (ops : FloatOps F) (log_dir : String)
    (s : csi_logger) (t : time_point) (hs : Reachable env ops s)
    (ht : env.now (s.tick + 1) = t) (hvalid : valid_tm t.local_tm)
    (hdir : env.create_directories s.tick log_dir = none)
    (hopen : env.open_ok (s.tick + 2)
      (csi_logger.file_name log_dir t s.file_rotation_counter_) = true) :
    (csi_logger.init env log_dir s).log_file_.is_open = true ∧
    (csi_logger.init env log_dir s).initialized_ = true ∧
    (csi_logger.init env log_dir s).log_file_.path = (csi_logger.init env log_dir s).current_file_ ∧
    open_files (csi_logger.init env log_dir s).trace = [(csi_logger.init env log_dir s).current_file_] ∧
    (csi_logger.init env log_dir s).current_file_
      = log_dir ++ "/csi_"
        ++ (toString (t.local_tm.tm_year + 1900) ++ setw_fill0 2 (t.local_tm.tm_mon + 1)
          ++ setw_fill0 2 t.local_tm.tm_mday ++ "_" ++ setw_fill0 2 t.local_tm.tm_hour
          ++ setw_fill0 2 t.local_tm.tm_min ++ setw_fill0 2 t.local_tm.tm_sec)
        ++ "_" ++ setw_fill0 3 (t.epoch_ms % 1000) ++ "_"
        ++ toString s.file_rotation_counter_ ++ ".csv" ∧
    is_decimal_field (toString (t.local_tm.tm_year + 1900)) 4 (t.local_tm.tm_year + 1900) ∧
    is_decimal_field (setw_fill0 2 (t.local_tm.tm_mon + 1)) 2 (t.local_tm.tm_mon + 1) ∧
    is_decimal_field (setw_fill0 2 t.local_tm.tm_mday) 2 t.local_tm.tm_mday ∧
    is_decimal_field (setw_fill0 2 t.local_tm.tm_hour) 2 t.local_tm.tm_hour ∧
    is_decimal_field (setw_fill0 2 t.local_tm.tm_min) 2 t.local_tm.tm_min ∧
    is_decimal_field (setw_fill0 2 t.local_tm.tm_sec) 2 t.local_tm.tm_sec ∧
    is_decimal_field (setw_fill0 3 (t.epoch_ms % 1000)) 3 (t.epoch_ms % 1000) ∧
    (∀ ch ∈ (toString s.file_rotation_counter_).data, ch.isDigit = true) ∧
    decimal_value (toString s.file_rotation_counter_).data = s.file_rotation_counter_ ∧
    (csi_logger.init env log_dir s).trace
      = s.trace ++ [Event.create_directories log_dir true] ++ close_events s.log_file_
        ++ [Event.fopen (csi_logger.init env log_dir s).current_file_ true,
            Event.fwrite (csi_logger.init env log_dir s).current_file_ csv_header,
            Event.fflush (csi_logger.init env log_dir s).current_file_,
            Event.cout ("CSI Logger initialized. Logging to: "
              ++ (csi_logger.init env log_dir s).current_file_ ++ "\n")] ∧
    csv_header = "timestamp,slot,symbol,rnti,prb_start,nof_prb,prb_idx,re_idx,rx_port,tx_layer,csi_real,csi_imag,csi_magnitude,csi_phase,rsrp_db,rsrq_db,sinr_db\n" := by
  subst ht
  obtain ⟨v1, v2, v3, v4, v5, v6, v7, v8⟩ := hvalid
  have hinv := (Inv_init env log_dir s hs.inv).2
  rw [init_ok_eq env log_dir s hdir] at hinv ⊢
  simp only [hopen, if_true] at hinv
  refine ⟨hopen, rfl, rfl, ?_, rfl, is_decimal_field_year _ v1 v2,
    is_decimal_field_setw_fill0 2 _ (by omega) (by decide),
    is_decimal_field_setw_fill0 2 _ (by omega) (by decide),
    is_decimal_field_setw_fill0 2 _ (by omega) (by decide),
    is_decimal_field_setw_fill0 2 _ (by omega) (by decide),
    is_decimal_field_setw_fill0 2 _ (by omega) (by decide),
    is_decimal_field_setw_fill0 3 _ (Nat.mod_lt _ (by decide)) (by decide),
    toString_nat_isDigit _, decimal_value_toString _, ?_, by decide⟩
  · simpa only [hopen] using hinv
  · simp [open_events, hopen]

theorem init_opens_one_file_witness :
    (csi_logger.init calmEnv "/var/log/csi" demo_state).log_file_.is_open = true ∧
    (csi_logger.init calmEnv "/var/log/csi" demo_state).initialized_ = true ∧
    (csi_logger.init calmEnv "/var/log/csi" demo_state).log_file_.path = (csi_logger.init calmEnv "/var/log/csi" demo_state).current_file_ ∧
    open_files (csi_logger.init calmEnv "/var/log/csi" demo_state).trace = [(csi_logger.init calmEnv "/var/log/csi" demo_state).current_file_] ∧
    (csi_logger.init calmEnv "/var/log/csi" demo_state).current_file_
      = "/var/log/csi" ++ "/csi_"
        ++ (toString ((calmEnv.now 4).local_tm.tm_year + 1900) ++ setw_fill0 2 ((calmEnv.now 4).local_tm.tm_mon + 1)
          ++ setw_fill0 2 (calmEnv.now 4).local_tm.tm_mday ++ "_" ++ setw_fill0 2 (calmEnv.now 4).local_tm.tm_hour
          ++ setw_fill0 2 (calmEnv.now 4).local_tm.tm_min ++ setw_fill0 2 (calmEnv.now 4).local_tm.tm_sec)
        ++ "_" ++ setw_fill0 3 ((calmEnv.now 4).epoch_ms % 1000) ++ "_"
        ++ toString demo_state.file_rotation_counter_ ++ ".csv" ∧
    is_decimal_field (toString ((calmEnv.now 4).local_tm.tm_year + 1900)) 4 ((calmEnv.now 4).local_tm.tm_year + 1900) ∧
    is_decimal_field (setw_fill0 2 ((calmEnv.now 4).local_tm.tm_mon + 1)) 2 ((calmEnv.now 4).local_tm.tm_mon + 1) ∧
    is_decimal_field (setw_fill0 2 (calmEnv.now 4).local_tm.tm_mday) 2 (calmEnv.now 4).local_tm.tm_mday ∧
    is_decimal_field (setw_fill0 2 (calmEnv.now 4).local_tm.tm_hour) 2 (calmEnv.now 4).local_tm.tm_hour ∧
    is_decimal_field (setw_fill0 2 (calmEnv.now 4).local_tm.tm_min) 2 (calmEnv.now 4).local_tm.tm_min ∧
    is_decimal_field (setw_fill0 2 (calmEnv.now 4).local_tm.tm_sec) 2 (calmEnv.now 4).local_tm.tm_sec ∧
    is_decimal_field (setw_fill0 3 ((calmEnv.now 4).epoch_ms % 1000)) 3 ((calmEnv.now 4).epoch_ms % 1000) ∧
    (∀ ch ∈ (toString demo_state.file_rotation_counter_).data, ch.isDigit = true) ∧
    decimal_value (toString demo_state.file_rotation_counter_).data = demo_state.file_rotation_counter_ ∧
    (csi_logger.init calmEnv "/var/log/csi" demo_state).trace
      = demo_state.trace ++ [Event.create_directories "/var/log/csi" true] ++ close_events demo_state.log_file_
        ++ [Event.fopen (csi_logger.init calmEnv "/var/log/csi" demo_state).current_file_ true,
            Event.fwrite (csi_logger.init calmEnv "/var/log/csi" demo_state).current_file_ csv_header,
            Event.fflush (csi_logger.init calmEnv "/var/log/csi" demo_state).current_file_,
            Event.cout ("CSI Logger initialized. Logging to: "
              ++ (csi_logger.init calmEnv "/var/log/csi" demo_state).current_file_ ++ "\n")] ∧
    csv_header = "timestamp,slot,symbol,rnti,prb_start,nof_prb,prb_idx,re_idx,rx_port,tx_layer,csi_real,csi_imag,csi_magnitude,csi_phase,rsrp_db,rsrq_db,sinr_db\n" :=
  init_opens_one_file calmEnv toyFloat "/var/log/csi" demo_state (calmEnv.now 4)
    (Reachable.init _ _ Reachable.initial) (by decide) (by unfold valid_tm; decide)
    (by decide) (by decide)

end srsran
